import Mathlib

/-!
Verification development for the Dioptase emulator core.

This file shallowly embeds the parts of `src/emulator.rs` and `src/memory.rs`
relevant to the frozen claims: the software-managed TLB (`RandomCache`), the
physical memory / MMIO bus (`Mem`), the SD DMA engine (`SdCard`), the
interrupt controller, and the CPU core state with its exception-entry,
interrupt-delivery, ALU, atomic, and kernel-instruction paths.

Conventions of the embedding:
- Machine `u32` values are `Nat`s kept below `2 ^ 32`; wrapping arithmetic is
  made explicit with `mask32`.  Bitwise `& | ^ << >>` map to `&&& ||| ^^^ <<< >>>`.
- Rust `HashMap`s become association lists with unique keys; the arbitrary
  iteration-order eviction victim of the TLB becomes the list head (the spec
  allows any deterministic order-free victim).
- Fallible paths return `Option`; a Rust panic / failed assert / debug-build
  arithmetic overflow is modelled as `none` at the level of the function that
  would abort.  `println!` diagnostics have no semantic effect and are dropped,
  as are the debugger watchpoint hooks, which never alter machine state.
-/

namespace Dioptase

/-- Wrap a natural number to 32 bits, mirroring Rust `u32` wrapping. -/
def mask32 (x : Nat) : Nat := x % 4294967296

/-- Truncate to 8 bits, mirroring Rust `as u8` casts. -/
def mask8 (x : Nat) : Nat := x % 256

/-- Bitwise complement on 32 bits (`!x` on a `u32`). -/
def lnot32 (x : Nat) : Nat := 0xFFFFFFFF ^^^ x

/-- Largest `u32` value (`u32::MAX`). -/
def u32max : Nat := 4294967295

/-- Pointwise update of a register-file or byte-store function. -/
def upd (f : Nat → Nat) (i v : Nat) : Nat → Nat := fun j => if j = i then v else f j

@[simp] theorem upd_same (f : Nat → Nat) (i v : Nat) : upd f i v i = v := by
  simp [upd]

theorem upd_ne (f : Nat → Nat) (i v j : Nat) (h : j ≠ i) : upd f i v j = f j := by
  simp [upd, h]

/-- Association-list lookup (models `HashMap::get`). -/
def alookup {α β : Type} [DecidableEq α] : List (α × β) → α → Option β
  | [], _ => none
  | (k, v) :: rest, a => if k = a then some v else alookup rest a

/-- Association-list removal of a key (models `HashMap::remove`). -/
def aremove {α β : Type} [DecidableEq α] : List (α × β) → α → List (α × β)
  | [], _ => []
  | (k, v) :: rest, a => if k = a then aremove rest a else (k, v) :: aremove rest a

/-- Association-list insert-or-replace (models `HashMap::insert`). -/
def ainsert {α β : Type} [DecidableEq α] (l : List (α × β)) (a : α) (b : β) :
    List (α × β) :=
  if (alookup l a).isSome then
    l.map (fun p => if p.1 = a then (a, b) else p)
  else
    (a, b) :: l

/-! Memory-map and device constants from `src/memory.rs` and `src/emulator.rs`. -/

def PHYSMEM_MAX : Nat := 0x7FFFFFF

def TIMER_INTERRUPT_BIT : Nat := 1
def KB_INTERRUPT_BIT : Nat := 2
def UART_INTERRUPT_BIT : Nat := 4
def SD_INTERRUPT_BIT : Nat := 8
def VGA_INTERRUPT_BIT : Nat := 16
def IPI_INTERRUPT_BIT : Nat := 32
def SD2_INTERRUPT_BIT : Nat := 64

def SD_BLOCK_SIZE : Nat := 512
def SD_DMA_BYTES_PER_TICK : Nat := 4

def PIXEL_FRAME_BUFFER_START : Nat := 0x7FC0000
def PIXEL_FRAME_BUFFER_SIZE : Nat := 153600
def TILE_FRAME_BUFFER_SIZE : Nat := 9600
def TILE_FRAME_BUFFER_START : Nat := 0x7FBD000
def IO_START : Nat := TILE_FRAME_BUFFER_START

def PS2_STREAM : Nat := 0x7FE5800
def UART_TX : Nat := 0x7FE5802
def UART_RX : Nat := 0x7FE5803
def PIT_START : Nat := 0x7FE5804

def SD_DMA_MEM_ADDR : Nat := 0x7FE5810
def SD2_DMA_MEM_ADDR : Nat := 0x7FE5828
def SD_DMA_OFFSET_MEM_ADDR : Nat := 0x0
def SD_DMA_OFFSET_SD_BLOCK : Nat := 0x4
def SD_DMA_OFFSET_LEN : Nat := 0x8
def SD_DMA_OFFSET_CTRL : Nat := 0xC
def SD_DMA_OFFSET_STATUS : Nat := 0x10
def SD_DMA_OFFSET_ERR : Nat := 0x14
def SD_DMA_RANGE_SIZE : Nat := 0x18

def SD_DMA_CTRL_START : Nat := 1
def SD_DMA_CTRL_DIR_RAM_TO_SD : Nat := 2
def SD_DMA_CTRL_IRQ_ENABLE : Nat := 4
def SD_DMA_STATUS_BUSY : Nat := 1
def SD_DMA_STATUS_DONE : Nat := 2
def SD_DMA_STATUS_ERR : Nat := 4
def SD_DMA_ERR_NONE : Nat := 0
def SD_DMA_ERR_BUSY : Nat := 1
def SD_DMA_ERR_ZERO_LEN : Nat := 2

def SPRITE_COUNT : Nat := 16
def SPRITE_REGISTERS_START : Nat := 0x7FE5B00
def SPRITE_REGISTERS_SIZE : Nat := 0x40
def TILE_H_SCROLL_START : Nat := 0x7FE5B40
def TILE_V_SCROLL_START : Nat := 0x7FE5B42
def TILE_SCALE_REGISTER_START : Nat := 0x7FE5B44
def PIXEL_H_SCROLL_START : Nat := 0x7FE5B50
def PIXEL_V_SCROLL_START : Nat := 0x7FE5B52
def PIXEL_SCALE_REGISTER_START : Nat := 0x7FE5B54
def SPRITE_SCALE_START : Nat := 0x7FE5B60
def SPRITE_SCALE_SIZE : Nat := SPRITE_COUNT
def VGA_STATUS_REGISTER_START : Nat := 0x7FE5B46
def VGA_FRAME_REGISTER_START : Nat := 0x7FE5B48
def CLK_REG_START : Nat := 0x7FE5B4C
def TILE_MAP_START : Nat := 0x7FE8000
def TILE_MAP_SIZE : Nat := 0x8000
def SPRITE_MAP_START : Nat := 0x7FF0000
def SPRITE_MAP_SIZE : Nat := 0x8000

/-!
The TLB: `RandomCache` from `src/emulator.rs`.
`private_table` is keyed by `(pid, vpn)`, `global_table` by `vpn`.
-/

structure RandomCache where
  private_table : List ((Nat × Nat) × Nat)
  private_size : Nat
  private_capacity : Nat
  global_table : List (Nat × Nat)
  global_size : Nat
  global_capacity : Nat

/-- `RandomCache::new`. -/
def RandomCache.new (capacity : Nat) : RandomCache :=
  { private_table := [], private_size := 0, private_capacity := capacity,
    global_table := [], global_size := 0, global_capacity := capacity }

/-- Permission filter applied to one raw TLB entry, as inlined twice in
`RandomCache::access`: the R/W/X bit selected by `operation`, then the U bit
unless in kernel mode.  Operations other than 0, 1, 2 panic in the source and
are modelled as `none`. -/
def entryFilter (v operation : Nat) (kmode : Bool) : Option Nat :=
  (if operation = 0 then
      if v &&& 0x00000001 = 0 then none else some v
    else if operation = 1 then
      if v &&& 0x00000002 = 0 then none else some v
    else if operation = 2 then
      if v &&& 0x00000004 = 0 then none else some v
    else none).bind
  (fun v =>
    if !kmode then
      if v &&& 0x00000008 = 0 then none else some v
    else some v)

/-- `RandomCache::access`: private table first, then the global table, with
permission checks; on a hit, return the PPN (upper 20 bits). -/
def RandomCache.access (c : RandomCache) (pid vpn operation : Nat) (kmode : Bool) :
    Option Nat :=
  let result := ((alookup c.private_table (pid, vpn)).bind
      (fun v => entryFilter v operation kmode)).map (fun v => v &&& 0xFFFFF000)
  if result.isSome then
    result
  else
    ((alookup c.global_table vpn).bind
      (fun v => entryFilter v operation kmode)).map (fun v => v &&& 0xFFFFF000)

/-- `RandomCache::read` (used by `tlbr`): raw entry, private first. -/
def RandomCache.read (c : RandomCache) (pid vpn : Nat) : Option Nat :=
  let result := alookup c.private_table (pid, vpn)
  if result.isSome then result else alookup c.global_table vpn

/-- `RandomCache::write`: insert into the global table when bit 4 (G) of the
payload is set, else into the private table; when the target table is full and
the key is new, evict an existing entry (the head stands in for the HashMap's
arbitrary first iteration key). -/
def RandomCache.write (c : RandomCache) (pid vpn ppn : Nat) : RandomCache :=
  if ppn &&& 0x00000010 ≠ 0 then
    let c :=
      if (alookup c.global_table vpn).isSome then c
      else if c.global_size < c.global_capacity then
        { c with global_size := c.global_size + 1 }
      else
        match c.global_table.head? with
        | some (k, _) => { c with global_table := aremove c.global_table k }
        | none => c
    { c with global_table := ainsert c.global_table vpn ppn }
  else
    let c :=
      if (alookup c.private_table (pid, vpn)).isSome then c
      else if c.private_size < c.private_capacity then
        { c with private_size := c.private_size + 1 }
      else
        match c.private_table.head? with
        | some (k, _) => { c with private_table := aremove c.private_table k }
        | none => c
    { c with private_table := ainsert c.private_table (pid, vpn) ppn }

/-- `RandomCache::invalidate`. -/
def RandomCache.invalidate (c : RandomCache) (pid vpn : Nat) : RandomCache :=
  let c :=
    if (alookup c.private_table (pid, vpn)).isSome then
      { c with private_size := c.private_size - 1 }
    else c
  let c :=
    if (alookup c.global_table vpn).isSome then
      { c with global_size := c.global_size - 1 }
    else c
  { c with private_table := aremove c.private_table (pid, vpn),
           global_table := aremove c.global_table vpn }

/-- `RandomCache::clear`. -/
def RandomCache.clear (c : RandomCache) : RandomCache :=
  { c with private_size := 0, global_size := 0,
           private_table := [], global_table := [] }

/-!
The SD card DMA engine (`SdCard` in `src/memory.rs`).  `storage` maps an SD
byte offset to the stored byte: block-granular allocation in the source is
observationally a byte store defaulting to 0, since fresh blocks are zeroed.
-/

structure SdCard where
  storage : Nat → Nat
  dma_mem_addr : Nat
  dma_sd_block : Nat
  dma_len : Nat
  dma_ctrl : Nat
  dma_status : Nat
  dma_err : Nat
  dma_active : Bool
  dma_mem_cursor : Nat
  dma_sd_byte_cursor : Nat
  dma_remaining : Nat
  dma_ticks_per_word : Nat
  dma_tick_countdown : Nat

/-- `SdCard::new`. -/
def SdCard.new (dma_ticks_per_word : Nat) : SdCard :=
  { storage := fun _ => 0,
    dma_mem_addr := 0, dma_sd_block := 0, dma_len := 0, dma_ctrl := 0,
    dma_status := 0, dma_err := SD_DMA_ERR_NONE, dma_active := false,
    dma_mem_cursor := 0, dma_sd_byte_cursor := 0, dma_remaining := 0,
    dma_ticks_per_word := max dma_ticks_per_word 1, dma_tick_countdown := 0 }

/-- `SdCard::start_dma`: begin a transfer from the current register values;
returns the updated card and whether an immediate interrupt is needed. -/
def SdCard.start_dma (sd : SdCard) : SdCard × Bool :=
  let irq_enable := sd.dma_ctrl &&& SD_DMA_CTRL_IRQ_ENABLE ≠ 0
  let is_busy := sd.dma_status &&& SD_DMA_STATUS_BUSY ≠ 0
  if is_busy then
    ({ sd with dma_err := SD_DMA_ERR_BUSY,
               dma_status := sd.dma_status ||| SD_DMA_STATUS_ERR }, false)
  else
    let mem_addr := sd.dma_mem_addr &&& 0xFFFFFFFC
    let len := sd.dma_len &&& 0xFFFFFFFC
    if len = 0 then
      ({ sd with dma_err := SD_DMA_ERR_ZERO_LEN,
                 dma_status := SD_DMA_STATUS_DONE ||| SD_DMA_STATUS_ERR,
                 dma_active := false }, irq_enable)
    else
      ({ sd with dma_mem_cursor := mem_addr,
                 dma_sd_byte_cursor := sd.dma_sd_block * SD_BLOCK_SIZE,
                 dma_remaining := len,
                 dma_err := SD_DMA_ERR_NONE,
                 dma_status := SD_DMA_STATUS_BUSY,
                 dma_active := true,
                 dma_tick_countdown := 0 }, false)

/-- `SdCard::clear_status`. -/
def SdCard.clear_status (sd : SdCard) : SdCard :=
  { sd with dma_status := (sd.dma_status &&& lnot32 SD_DMA_STATUS_DONE)
                            &&& lnot32 SD_DMA_STATUS_ERR,
            dma_err := SD_DMA_ERR_NONE }

/-- Free helper `read_reg_byte`: little-endian byte of a 32-bit register. -/
def read_reg_byte (value addr base : Nat) : Nat :=
  (value >>> ((addr - base) * 8)) &&& 0xFF

/-- Free helper `write_reg_byte`: replace one little-endian byte. -/
def write_reg_byte (reg addr base value : Nat) : Nat :=
  let shift := (addr - base) * 8
  let mask := 0xFF <<< shift
  (reg &&& lnot32 mask) ||| (value <<< shift)

/-- Free helper `read_sd_dma_mmio`: read one byte of the SD register block. -/
def read_sd_dma_mmio (addr base : Nat) (sd : SdCard) : Option Nat :=
  if addr < base ∨ base + SD_DMA_RANGE_SIZE ≤ addr then none
  else if base + SD_DMA_OFFSET_MEM_ADDR ≤ addr ∧
      addr < base + SD_DMA_OFFSET_MEM_ADDR + 4 then
    some (read_reg_byte sd.dma_mem_addr addr (base + SD_DMA_OFFSET_MEM_ADDR))
  else if base + SD_DMA_OFFSET_SD_BLOCK ≤ addr ∧
      addr < base + SD_DMA_OFFSET_SD_BLOCK + 4 then
    some (read_reg_byte sd.dma_sd_block addr (base + SD_DMA_OFFSET_SD_BLOCK))
  else if base + SD_DMA_OFFSET_LEN ≤ addr ∧ addr < base + SD_DMA_OFFSET_LEN + 4 then
    some (read_reg_byte sd.dma_len addr (base + SD_DMA_OFFSET_LEN))
  else if base + SD_DMA_OFFSET_CTRL ≤ addr ∧ addr < base + SD_DMA_OFFSET_CTRL + 4 then
    some (read_reg_byte sd.dma_ctrl addr (base + SD_DMA_OFFSET_CTRL))
  else if base + SD_DMA_OFFSET_STATUS ≤ addr ∧
      addr < base + SD_DMA_OFFSET_STATUS + 4 then
    let status :=
      if sd.dma_err ≠ SD_DMA_ERR_NONE then sd.dma_status ||| SD_DMA_STATUS_ERR
      else sd.dma_status &&& lnot32 SD_DMA_STATUS_ERR
    some (read_reg_byte status addr (base + SD_DMA_OFFSET_STATUS))
  else
    some (read_reg_byte sd.dma_err addr (base + SD_DMA_OFFSET_ERR))

/-- Selects one of the two SD devices (`sd_card` / `sd_card2`). -/
inductive SdSel where
  | sd0 : SdSel
  | sd1 : SdSel

/-!
The physical memory / MMIO bus (`Memory` in `src/memory.rs`).  Byte stores
behind locks become plain functions; the keyboard/UART queue is the list of
pending 16-bit key codes.  Four-byte scalar registers keep the source's
per-byte tuple layout.
-/

structure Mem where
  ram : Nat → Nat
  pixel_frame_buffer : Nat → Nat
  tile_frame_buffer : Nat → Nat
  tile_map : Nat → Nat
  io_buffer : List Nat
  tile_vscroll_register : Nat × Nat
  tile_hscroll_register : Nat × Nat
  pixel_vscroll_register : Nat × Nat
  pixel_hscroll_register : Nat × Nat
  tile_scale_register : Nat
  pixel_scale_register : Nat
  sprite_scale_registers : Nat → Nat
  vga_status_register : Nat
  vga_frame_register : Nat × Nat × Nat × Nat
  clk_register : Nat × Nat × Nat × Nat
  pit : Nat × Nat × Nat × Nat
  pit_countdown : Nat
  sprite_map : Nat → Nat
  sprite_regs : Nat → Nat
  sd_card : SdCard
  sd_card2 : SdCard
  pending_interrupt : Nat
  use_uart_rx : Bool

/-- `Memory::new` with an initial byte image standing in for the loaded
program `HashMap` (unset bytes read as 0, as in the source). -/
def Mem.new (ram : Nat → Nat) (use_uart_rx : Bool) (sd_dma_ticks_per_word : Nat) :
    Mem :=
  let ticks_per_word := max sd_dma_ticks_per_word 1
  { ram := ram,
    pixel_frame_buffer := fun _ => 0,
    tile_frame_buffer := fun _ => 0,
    tile_map := fun _ => 0,
    io_buffer := [],
    tile_vscroll_register := (0, 0),
    tile_hscroll_register := (0, 0),
    pixel_vscroll_register := (0, 0),
    pixel_hscroll_register := (0, 0),
    tile_scale_register := 0,
    pixel_scale_register := 0,
    sprite_scale_registers := fun _ => 0,
    vga_status_register := 0,
    vga_frame_register := (0, 0, 0, 0),
    clk_register := (0, 0, 0, 0),
    pit := (0, 0, 0, 0),
    pit_countdown := 0,
    sprite_map := fun _ => 0xFF,
    sprite_regs := fun _ => 0,
    sd_card := SdCard.new ticks_per_word,
    sd_card2 := SdCard.new ticks_per_word,
    pending_interrupt := 0,
    use_uart_rx := use_uart_rx }

def Mem.getSd (m : Mem) : SdSel → SdCard
  | SdSel.sd0 => m.sd_card
  | SdSel.sd1 => m.sd_card2

def Mem.setSd (m : Mem) : SdSel → SdCard → Mem
  | SdSel.sd0, sd => { m with sd_card := sd }
  | SdSel.sd1, sd => { m with sd_card2 := sd }

/-- `Memory::read_internal`: one byte off the bus.  Reads of the PS/2 high
byte and of `UART_RX` pop the input queue, so the (possibly updated) memory is
returned alongside the byte.  `none` models the source's panics (address above
`PHYSMEM_MAX`, reading `UART_TX`, unmapped IO). -/
def Mem.read_internal (m : Mem) (addr : Nat) : Option (Nat × Mem) :=
  if ¬ addr ≤ PHYSMEM_MAX then none
  else if TILE_MAP_START ≤ addr ∧ addr < TILE_MAP_START + TILE_MAP_SIZE then
    some (m.tile_map (addr - TILE_MAP_START), m)
  else if TILE_FRAME_BUFFER_START ≤ addr ∧
      addr < TILE_FRAME_BUFFER_START + TILE_FRAME_BUFFER_SIZE then
    some (m.tile_frame_buffer (addr - TILE_FRAME_BUFFER_START), m)
  else if PIXEL_FRAME_BUFFER_START ≤ addr ∧
      addr < PIXEL_FRAME_BUFFER_START + PIXEL_FRAME_BUFFER_SIZE then
    some (m.pixel_frame_buffer (addr - PIXEL_FRAME_BUFFER_START), m)
  else if SD_DMA_MEM_ADDR ≤ addr ∧ addr < SD_DMA_MEM_ADDR + SD_DMA_RANGE_SIZE then
    some ((read_sd_dma_mmio addr SD_DMA_MEM_ADDR m.sd_card).getD 0, m)
  else if SD2_DMA_MEM_ADDR ≤ addr ∧ addr < SD2_DMA_MEM_ADDR + SD_DMA_RANGE_SIZE then
    some ((read_sd_dma_mmio addr SD2_DMA_MEM_ADDR m.sd_card2).getD 0, m)
  else if addr = PS2_STREAM then
    if m.use_uart_rx then some (0, m)
    else some (mask8 (m.io_buffer.head?.getD 0), m)
  else if addr = PS2_STREAM + 1 then
    if m.use_uart_rx then some (0, m)
    else some (mask8 ((m.io_buffer.head?.getD 0) >>> 8),
               { m with io_buffer := m.io_buffer.tail })
  else if SPRITE_MAP_START ≤ addr ∧ addr < SPRITE_MAP_START + SPRITE_MAP_SIZE then
    some (m.sprite_map (addr - SPRITE_MAP_START), m)
  else if SPRITE_REGISTERS_START ≤ addr ∧
      addr < SPRITE_REGISTERS_START + SPRITE_REGISTERS_SIZE then
    some (m.sprite_regs (addr - SPRITE_REGISTERS_START), m)
  else if addr = TILE_V_SCROLL_START then some (m.tile_vscroll_register.1, m)
  else if addr = TILE_V_SCROLL_START + 1 then some (m.tile_vscroll_register.2, m)
  else if addr = TILE_H_SCROLL_START then some (m.tile_hscroll_register.1, m)
  else if addr = TILE_H_SCROLL_START + 1 then some (m.tile_hscroll_register.2, m)
  else if addr = TILE_SCALE_REGISTER_START then some (m.tile_scale_register, m)
  else if addr = PIXEL_V_SCROLL_START then some (m.pixel_vscroll_register.1, m)
  else if addr = PIXEL_V_SCROLL_START + 1 then some (m.pixel_vscroll_register.2, m)
  else if addr = PIXEL_H_SCROLL_START then some (m.pixel_hscroll_register.1, m)
  else if addr = PIXEL_H_SCROLL_START + 1 then some (m.pixel_hscroll_register.2, m)
  else if addr = PIXEL_SCALE_REGISTER_START then some (m.pixel_scale_register, m)
  else if SPRITE_SCALE_START ≤ addr ∧ addr < SPRITE_SCALE_START + SPRITE_SCALE_SIZE then
    some (m.sprite_scale_registers (addr - SPRITE_SCALE_START), m)
  else if addr = VGA_STATUS_REGISTER_START then some (m.vga_status_register, m)
  else if addr = VGA_FRAME_REGISTER_START then some (m.vga_frame_register.1, m)
  else if addr = VGA_FRAME_REGISTER_START + 1 then some (m.vga_frame_register.2.1, m)
  else if addr = VGA_FRAME_REGISTER_START + 2 then some (m.vga_frame_register.2.2.1, m)
  else if addr = VGA_FRAME_REGISTER_START + 3 then some (m.vga_frame_register.2.2.2, m)
  else if addr = UART_TX then none
  else if addr = UART_RX then
    if m.use_uart_rx then
      let value := m.io_buffer.head?.getD 0
      let m := { m with io_buffer := m.io_buffer.tail }
      if value &&& 0xFF00 ≠ 0 then some (0, m) else some (mask8 value, m)
    else some (0, m)
  else if addr = PIT_START then some (m.pit.1, m)
  else if addr = PIT_START + 1 then some (m.pit.2.1, m)
  else if addr = PIT_START + 2 then some (m.pit.2.2.1, m)
  else if addr = PIT_START + 3 then some (m.pit.2.2.2, m)
  else if addr = CLK_REG_START then some (m.clk_register.1, m)
  else if addr = CLK_REG_START + 1 then some (m.clk_register.2.1, m)
  else if addr = CLK_REG_START + 2 then some (m.clk_register.2.2.1, m)
  else if addr = CLK_REG_START + 3 then some (m.clk_register.2.2.2, m)
  else if IO_START ≤ addr then none
  else some (m.ram addr, m)

/-- `Memory::write_sd_dma_mmio`: handle a byte write into one SD register
block; returns whether the address was handled (if so, the source returns
without touching RAM). -/
def Mem.write_sd_dma_mmio (m : Mem) (addr data base : Nat) (sel : SdSel)
    (interrupt_bit : Nat) : Bool × Mem :=
  if addr < base ∨ base + SD_DMA_RANGE_SIZE ≤ addr then (false, m)
  else if base + SD_DMA_OFFSET_MEM_ADDR ≤ addr ∧
      addr < base + SD_DMA_OFFSET_MEM_ADDR + 4 then
    let sd := m.getSd sel
    let v := write_reg_byte sd.dma_mem_addr addr (base + SD_DMA_OFFSET_MEM_ADDR) data
    (true, m.setSd sel { sd with dma_mem_addr := v })
  else if base + SD_DMA_OFFSET_SD_BLOCK ≤ addr ∧
      addr < base + SD_DMA_OFFSET_SD_BLOCK + 4 then
    let sd := m.getSd sel
    let v := write_reg_byte sd.dma_sd_block addr (base + SD_DMA_OFFSET_SD_BLOCK) data
    (true, m.setSd sel { sd with dma_sd_block := v })
  else if base + SD_DMA_OFFSET_LEN ≤ addr ∧ addr < base + SD_DMA_OFFSET_LEN + 4 then
    let sd := m.getSd sel
    let v := write_reg_byte sd.dma_len addr (base + SD_DMA_OFFSET_LEN) data
    (true, m.setSd sel { sd with dma_len := v })
  else if base + SD_DMA_OFFSET_CTRL ≤ addr ∧ addr < base + SD_DMA_OFFSET_CTRL + 4 then
    let sd := m.getSd sel
    let v := write_reg_byte sd.dma_ctrl addr (base + SD_DMA_OFFSET_CTRL) data
    let sd := { sd with dma_ctrl := v }
    let keep := SD_DMA_CTRL_START ||| SD_DMA_CTRL_DIR_RAM_TO_SD ||| SD_DMA_CTRL_IRQ_ENABLE
    let sd := { sd with dma_ctrl := sd.dma_ctrl &&& keep }
    let should_start := sd.dma_ctrl &&& SD_DMA_CTRL_START ≠ 0
    if should_start then
      let sd := { sd with dma_ctrl := sd.dma_ctrl &&& lnot32 SD_DMA_CTRL_START }
      let (sd, interrupt) := sd.start_dma
      let m := m.setSd sel sd
      if interrupt then
        (true, { m with pending_interrupt := m.pending_interrupt ||| interrupt_bit })
      else (true, m)
    else (true, m.setSd sel sd)
  else if base + SD_DMA_OFFSET_STATUS ≤ addr ∧
      addr < base + SD_DMA_OFFSET_STATUS + 4 then
    (true, m.setSd sel (m.getSd sel).clear_status)
  else (true, m)

/-- `Memory::write_internal`: one byte onto the bus.  Every non-SD handled
branch (and plain RAM) ends with the source's unconditional `ram.insert`;
`none` models the panics (out of range, writing read-only or input registers,
unmapped IO). -/
def Mem.write_internal (m : Mem) (addr data : Nat) : Option Mem :=
  if ¬ addr ≤ PHYSMEM_MAX then none
  else if TILE_MAP_START ≤ addr ∧ addr < TILE_MAP_START + TILE_MAP_SIZE then
    let m := { m with tile_map := upd m.tile_map (addr - TILE_MAP_START) data }
    some { m with ram := upd m.ram addr data }
  else if TILE_FRAME_BUFFER_START ≤ addr ∧
      addr < TILE_FRAME_BUFFER_START + TILE_FRAME_BUFFER_SIZE then
    let v := upd m.tile_frame_buffer (addr - TILE_FRAME_BUFFER_START) data
    let m := { m with tile_frame_buffer := v }
    some { m with ram := upd m.ram addr data }
  else if PIXEL_FRAME_BUFFER_START ≤ addr ∧
      addr < PIXEL_FRAME_BUFFER_START + PIXEL_FRAME_BUFFER_SIZE then
    let v := upd m.pixel_frame_buffer (addr - PIXEL_FRAME_BUFFER_START) data
    let m := { m with pixel_frame_buffer := v }
    some { m with ram := upd m.ram addr data }
  else
    match m.write_sd_dma_mmio addr data SD_DMA_MEM_ADDR SdSel.sd0 SD_INTERRUPT_BIT with
    | (true, m) => some m
    | (false, _) =>
      match m.write_sd_dma_mmio addr data SD2_DMA_MEM_ADDR SdSel.sd1 SD2_INTERRUPT_BIT with
      | (true, m) => some m
      | (false, _) =>
        if addr = PS2_STREAM then none
        else if addr = UART_TX then
          -- byte goes to stdout; the RAM shadow write still happens
          some { m with ram := upd m.ram addr data }
        else if addr = UART_RX then none
        else if addr = TILE_V_SCROLL_START then
          let m := { m with tile_vscroll_register := (data, m.tile_vscroll_register.2) }
          some { m with ram := upd m.ram addr data }
        else if addr = TILE_V_SCROLL_START + 1 then
          let m := { m with tile_vscroll_register := (m.tile_vscroll_register.1, data) }
          some { m with ram := upd m.ram addr data }
        else if addr = TILE_H_SCROLL_START then
          let m := { m with tile_hscroll_register := (data, m.tile_hscroll_register.2) }
          some { m with ram := upd m.ram addr data }
        else if addr = TILE_H_SCROLL_START + 1 then
          let m := { m with tile_hscroll_register := (m.tile_hscroll_register.1, data) }
          some { m with ram := upd m.ram addr data }
        else if addr = TILE_SCALE_REGISTER_START then
          let m := { m with tile_scale_register := data }
          some { m with ram := upd m.ram addr data }
        else if addr = PIXEL_V_SCROLL_START then
          let m := { m with pixel_vscroll_register := (data, m.pixel_vscroll_register.2) }
          some { m with ram := upd m.ram addr data }
        else if addr = PIXEL_V_SCROLL_START + 1 then
          let m := { m with pixel_vscroll_register := (m.pixel_vscroll_register.1, data) }
          some { m with ram := upd m.ram addr data }
        else if addr = PIXEL_H_SCROLL_START then
          let m := { m with pixel_hscroll_register := (data, m.pixel_hscroll_register.2) }
          some { m with ram := upd m.ram addr data }
        else if addr = PIXEL_H_SCROLL_START + 1 then
          let m := { m with pixel_hscroll_register := (m.pixel_hscroll_register.1, data) }
          some { m with ram := upd m.ram addr data }
        else if addr = PIXEL_SCALE_REGISTER_START then
          let m := { m with pixel_scale_register := data }
          some { m with ram := upd m.ram addr data }
        else if SPRITE_SCALE_START ≤ addr ∧
            addr < SPRITE_SCALE_START + SPRITE_SCALE_SIZE then
          let v := upd m.sprite_scale_registers (addr - SPRITE_SCALE_START) data
          let m := { m with sprite_scale_registers := v }
          some { m with ram := upd m.ram addr data }
        else if SPRITE_MAP_START ≤ addr ∧ addr < SPRITE_MAP_START + SPRITE_MAP_SIZE then
          let m := { m with sprite_map := upd m.sprite_map (addr - SPRITE_MAP_START) data }
          some { m with ram := upd m.ram addr data }
        else if SPRITE_REGISTERS_START ≤ addr ∧
            addr < SPRITE_REGISTERS_START + SPRITE_REGISTERS_SIZE then
          let v := upd m.sprite_regs (addr - SPRITE_REGISTERS_START) data
          let m := { m with sprite_regs := v }
          some { m with ram := upd m.ram addr data }
        else if addr = PIT_START then
          let m := { m with pit := (data, m.pit.2.1, m.pit.2.2.1, m.pit.2.2.2) }
          some { m with ram := upd m.ram addr data }
        else if addr = PIT_START + 1 then
          let m := { m with pit := (m.pit.1, data, m.pit.2.2.1, m.pit.2.2.2) }
          some { m with ram := upd m.ram addr data }
        else if addr = PIT_START + 2 then
          let m := { m with pit := (m.pit.1, m.pit.2.1, data, m.pit.2.2.2) }
          some { m with ram := upd m.ram addr data }
        else if addr = PIT_START + 3 then
          let m := { m with pit := (m.pit.1, m.pit.2.1, m.pit.2.2.1, data) }
          some { m with ram := upd m.ram addr data }
        else if addr = CLK_REG_START then
          let v := (data, m.clk_register.2.1, m.clk_register.2.2.1, m.clk_register.2.2.2)
          let m := { m with clk_register := v }
          some { m with ram := upd m.ram addr data }
        else if addr = CLK_REG_START + 1 then
          let v := (m.clk_register.1, data, m.clk_register.2.2.1, m.clk_register.2.2.2)
          let m := { m with clk_register := v }
          some { m with ram := upd m.ram addr data }
        else if addr = CLK_REG_START + 2 then
          let v := (m.clk_register.1, m.clk_register.2.1, data, m.clk_register.2.2.2)
          let m := { m with clk_register := v }
          some { m with ram := upd m.ram addr data }
        else if addr = CLK_REG_START + 3 then
          let v := (m.clk_register.1, m.clk_register.2.1, m.clk_register.2.2.1, data)
          let m := { m with clk_register := v }
          some { m with ram := upd m.ram addr data }
        else if addr = VGA_STATUS_REGISTER_START then none
        else if VGA_FRAME_REGISTER_START ≤ addr ∧
            addr < VGA_FRAME_REGISTER_START + 4 then none
        else if IO_START ≤ addr then none
        else some { m with ram := upd m.ram addr data }

/-- `Memory::read_u32_internal`: four byte reads composed little-endian. -/
def Mem.read_u32_internal (m : Mem) (addr : Nat) : Option (Nat × Mem) :=
  match m.read_internal addr with
  | none => none
  | some (b0, m) =>
    match m.read_internal (addr + 1) with
    | none => none
    | some (b1, m) =>
      match m.read_internal (addr + 2) with
      | none => none
      | some (b2, m) =>
        match m.read_internal (addr + 3) with
        | none => none
        | some (b3, m) =>
          some ((b3 <<< 24) ||| (b2 <<< 16) ||| (b1 <<< 8) ||| b0, m)

/-- `Memory::write_u32_internal`: four little-endian byte writes. -/
def Mem.write_u32_internal (m : Mem) (addr data : Nat) : Option Mem :=
  match m.write_internal addr (mask8 data) with
  | none => none
  | some m =>
    match m.write_internal (addr + 1) (mask8 (data >>> 8)) with
    | none => none
    | some m =>
      match m.write_internal (addr + 2) (mask8 (data >>> 16)) with
      | none => none
      | some m =>
        m.write_internal (addr + 3) (mask8 (data >>> 24))

/-- `Memory::read_u32` (public, word-aligning). -/
def Mem.read_u32 (m : Mem) (addr : Nat) : Option (Nat × Mem) :=
  m.read_u32_internal (addr &&& 0xFFFFFFFC)

/-- `Memory::atomic_swap_u32`: read-then-write under one lock. -/
def Mem.atomic_swap_u32 (m : Mem) (addr value : Nat) : Option (Nat × Mem) :=
  let addr := addr &&& 0xFFFFFFFC
  match m.read_u32_internal addr with
  | none => none
  | some (prev, m) =>
    match m.write_u32_internal addr value with
    | none => none
    | some m => some (prev, m)

/-- `Memory::atomic_add_u32`: wrapping add read-modify-write under one lock. -/
def Mem.atomic_add_u32 (m : Mem) (addr value : Nat) : Option (Nat × Mem) :=
  let addr := addr &&& 0xFFFFFFFC
  match m.read_u32_internal addr with
  | none => none
  | some (prev, m) =>
    match m.write_u32_internal addr (mask32 (prev + value)) with
    | none => none
    | some m => some (prev, m)

/-- `Memory::check_interrupts`: take and clear the device-raised bits. -/
def Mem.check_interrupts (m : Mem) : Nat × Mem :=
  let pending := m.pending_interrupt
  if pending ≠ 0 then (pending, { m with pending_interrupt := 0 }) else (pending, m)

/-!
The interrupt controller (`InterruptController` / `InterruptRouteState`).
Atomics and the routes mutex flatten to plain state.
-/

structure InterruptRouteState where
  next_kb : Nat
  next_uart : Nat
  next_sd : Nat
  next_vga : Nat
  kb_inflight : Option Nat
  uart_inflight : Option Nat

structure InterruptController where
  cores : Nat
  pending : Nat → Nat
  ipi_payload : Nat → Nat
  routes : InterruptRouteState

/-- `InterruptController::new`. -/
def InterruptController.new (cores : Nat) : InterruptController :=
  { cores := cores, pending := fun _ => 0, ipi_payload := fun _ => 0,
    routes := { next_kb := 0, next_uart := 0, next_sd := 0, next_vga := 0,
                kb_inflight := none, uart_inflight := none } }

/-- `set_pending_bits`: OR bits into one core's pending word. -/
def InterruptController.set_pending_bits (ic : InterruptController)
    (core bits : Nat) : InterruptController :=
  { ic with pending := upd ic.pending core (ic.pending core ||| bits) }

/-- `take_pending`: atomically swap out one core's pending word. -/
def InterruptController.take_pending (ic : InterruptController) (core : Nat) :
    Nat × InterruptController :=
  (ic.pending core, { ic with pending := upd ic.pending core 0 })

def InterruptController.read_ipi_payload (ic : InterruptController) (core : Nat) :
    Nat :=
  ic.ipi_payload core

def InterruptController.write_ipi_payload (ic : InterruptController)
    (core value : Nat) : InterruptController :=
  { ic with ipi_payload := upd ic.ipi_payload core value }

/-- `send_ipi`: store the payload and raise the IPI bit on the target core;
fails exactly when the target index is out of range. -/
def InterruptController.send_ipi (ic : InterruptController) (target value : Nat) :
    InterruptController × Bool :=
  if ic.cores ≤ target then (ic, false)
  else
    ((ic.write_ipi_payload target value).set_pending_bits target IPI_INTERRUPT_BIT,
     true)

/-- `send_ipi_all`: broadcast to every other core, returning the target mask. -/
def InterruptController.send_ipi_all (ic : InterruptController)
    (sender value : Nat) : InterruptController × Nat :=
  (List.range ic.cores).foldl
    (fun p core =>
      if core = sender then p
      else
        match p.1.send_ipi core value with
        | (ic, true) => (ic, p.2 ||| (1 <<< core))
        | (ic, false) => (ic, p.2))
    (ic, 0)

/-- `dispatch_input`: route the next KB or UART interrupt round-robin to one
core when input is available and no delivery is in flight. -/
def InterruptController.dispatch_input (ic : InterruptController)
    (use_uart_rx io_nonempty : Bool) : InterruptController :=
  if use_uart_rx then
    if io_nonempty ∧ ic.routes.uart_inflight = none then
      let core := ic.routes.next_uart % ic.cores
      let ic := { ic with routes := { ic.routes with
          next_uart := (ic.routes.next_uart + 1) % ic.cores,
          uart_inflight := some core } }
      ic.set_pending_bits core UART_INTERRUPT_BIT
    else ic
  else
    if io_nonempty ∧ ic.routes.kb_inflight = none then
      let core := ic.routes.next_kb % ic.cores
      let ic := { ic with routes := { ic.routes with
          next_kb := (ic.routes.next_kb + 1) % ic.cores,
          kb_inflight := some core } }
      ic.set_pending_bits core KB_INTERRUPT_BIT
    else ic

/-- `dispatch_device_interrupts`: SD and VGA bits go to one core round-robin. -/
def InterruptController.dispatch_device_interrupts (ic : InterruptController)
    (pending : Nat) : InterruptController :=
  if pending = 0 then ic
  else
    let ic :=
      if pending &&& SD_INTERRUPT_BIT ≠ 0 then
        let core := ic.routes.next_sd % ic.cores
        let ic := { ic with routes := { ic.routes with
            next_sd := (ic.routes.next_sd + 1) % ic.cores } }
        ic.set_pending_bits core SD_INTERRUPT_BIT
      else ic
    if pending &&& VGA_INTERRUPT_BIT ≠ 0 then
      let core := ic.routes.next_vga % ic.cores
      let ic := { ic with routes := { ic.routes with
          next_vga := (ic.routes.next_vga + 1) % ic.cores } }
      ic.set_pending_bits core VGA_INTERRUPT_BIT
    else ic

/-- `ack_input`: release the in-flight KB/UART slot when the owning core
clears the corresponding ISR bit. -/
def InterruptController.ack_input (ic : InterruptController)
    (core cleared_bits : Nat) : InterruptController :=
  if cleared_bits = 0 then ic
  else
    let ic :=
      if cleared_bits &&& KB_INTERRUPT_BIT ≠ 0 ∧ ic.routes.kb_inflight = some core then
        { ic with routes := { ic.routes with kb_inflight := none } }
      else ic
    if cleared_bits &&& UART_INTERRUPT_BIT ≠ 0 ∧ ic.routes.uart_inflight = some core then
      { ic with routes := { ic.routes with uart_inflight := none } }
    else ic

/-!
The CPU core (`Emulator` in `src/emulator.rs`).  The control register file
`cregfile` is PSR, PID, ISR, IMR, EPC, FLG, unused, TLB, KSP, CID, MBI, MBO at
indices 0..11.  The shared `Arc<Memory>` becomes an owned `memory` field; the
shared `Arc<InterruptController>` is threaded explicitly through the functions
that touch it.  Watchpoint bookkeeping never alters machine state and is
omitted.
-/

structure Emulator where
  kmode : Bool
  regfile : Nat → Nat
  cregfile : Nat → Nat
  memory : Mem
  tlb : RandomCache
  pc : Nat
  asleep : Bool
  sleep_armed : Bool
  halted : Bool
  timer : Nat
  count : Nat
  core_id : Nat
  use_uart_rx : Bool

/-- `Emulator::from_shared`: initial per-core state (PSR=1, kernel mode,
PC=0x400, CID set, secondary cores asleep with IPI-enabled IMR). -/
def Emulator.from_shared (memory : Mem) (use_uart_rx : Bool) (core_id : Nat) :
    Emulator :=
  let cregfile := upd (fun i => if i = 0 then 1 else 0) 9 core_id
  let cregfile := if core_id ≠ 0 then upd cregfile 3 0x80000020 else cregfile
  { kmode := true,
    regfile := fun _ => 0,
    cregfile := cregfile,
    memory := memory,
    tlb := RandomCache.new 32,
    pc := 0x400,
    asleep := core_id ≠ 0,
    sleep_armed := false,
    halted := false,
    timer := 0,
    count := 0,
    core_id := core_id,
    use_uart_rx := use_uart_rx }

/-- `read_isr`. -/
def Emulator.read_isr (s : Emulator) : Nat := s.cregfile 2

/-- `write_isr`: store ISR and report cleared bits to the controller. -/
def Emulator.write_isr (s : Emulator) (ic : InterruptController) (value : Nat) :
    Emulator × InterruptController :=
  let old := s.cregfile 2
  let s := { s with cregfile := upd s.cregfile 2 value }
  let cleared := old &&& lnot32 value
  if cleared ≠ 0 then (s, ic.ack_input s.core_id cleared) else (s, ic)

/-- `set_isr_bits`. -/
def Emulator.set_isr_bits (s : Emulator) (bits : Nat) : Emulator :=
  { s with cregfile := upd s.cregfile 2 (s.cregfile 2 ||| bits) }

/-- `read_mbi`. -/
def Emulator.read_mbi (s : Emulator) : Nat := s.cregfile 10

/-- `write_mbi`. -/
def Emulator.write_mbi (s : Emulator) (value : Nat) : Emulator :=
  { s with cregfile := upd s.cregfile 10 value }

/-- `read_creg`; an index past the 12-entry array panics (`none`). -/
def Emulator.read_creg (s : Emulator) (idx : Nat) : Option Nat :=
  if idx = 2 then some s.read_isr
  else if idx = 10 then some s.read_mbi
  else if idx < 12 then some (s.cregfile idx)
  else none

/-- `write_creg`: CID (index 9) is read-only (warning only); ISR routes
through `write_isr`; an index past the array panics (`none`). -/
def Emulator.write_creg (s : Emulator) (ic : InterruptController)
    (idx value : Nat) : Option (Emulator × InterruptController) :=
  if idx = 2 then some (s.write_isr ic value)
  else if idx = 9 then some (s, ic)
  else if idx = 10 then some (s.write_mbi value, ic)
  else if idx < 12 then some ({ s with cregfile := upd s.cregfile idx value }, ic)
  else none

/-- `get_reg`: r31 aliases the kernel stack pointer (cregfile 8) in kmode. -/
def Emulator.get_reg (s : Emulator) (regnum : Nat) : Nat :=
  if s.kmode ∧ regnum = 31 then s.cregfile 8 else s.regfile regnum

/-- `write_reg`: r31 aliases KSP in kmode; r0 writes are dropped. -/
def Emulator.write_reg (s : Emulator) (regnum value : Nat) : Emulator :=
  if s.kmode ∧ regnum = 31 then { s with cregfile := upd s.cregfile 8 value }
  else if regnum ≠ 0 then { s with regfile := upd s.regfile regnum value }
  else s

/-- `convert_mem_address`: kernel accesses at or below `PHYSMEM_MAX` bypass
the TLB; otherwise translate `(PID, VPN)` through the TLB and splice the low
12-bit page offset back in. -/
def Emulator.convert_mem_address (s : Emulator) (addr operation : Nat) :
    Option Nat :=
  if s.kmode then
    if addr ≤ PHYSMEM_MAX then some addr
    else
      match s.tlb.access (s.cregfile 1) (addr >>> 12) operation s.kmode with
      | some result => some (result ||| (addr &&& 0xFFF))
      | none => none
  else
    match s.tlb.access (s.cregfile 1) (addr >>> 12) operation s.kmode with
    | some result => some (result ||| (addr &&& 0xFFF))
    | none => none

/-- `save_state`: EPC := PC, then clear IMR bit 31. -/
def Emulator.save_state (s : Emulator) : Emulator :=
  let s := { s with cregfile := upd s.cregfile 4 s.pc }
  { s with cregfile := upd s.cregfile 3 (s.cregfile 3 &&& 0x7FFFFFFF) }

/-- Outcome of a CPU-side memory access: success (with the possibly updated
bus), a TLB miss (`None` in the source), or a host panic on the bus. -/
inductive MemOut (α : Type) where
  | ok : α → Mem → MemOut α
  | tlbMiss : MemOut α
  | fault : MemOut α

/-- `u32::from_le_bytes`, and the byte composition of `read_u32_internal`. -/
def le32 (b0 b1 b2 b3 : Nat) : Nat :=
  (b3 <<< 24) ||| (b2 <<< 16) ||| (b1 <<< 8) ||| b0

/-- `Emulator::mem_read32`: translate each constituent byte address through
the TLB (miss on any failure), then gather the four bytes under one bus lock
and compose them little-endian. -/
def Emulator.mem_read32 (s : Emulator) (addr : Nat) : MemOut Nat :=
  match s.convert_mem_address addr 0, s.convert_mem_address (addr + 1) 0,
        s.convert_mem_address (addr + 2) 0, s.convert_mem_address (addr + 3) 0 with
  | some a0, some a1, some a2, some a3 =>
    (match s.memory.read_internal a0 with
     | none => MemOut.fault
     | some (b0, m) =>
       match m.read_internal a1 with
       | none => MemOut.fault
       | some (b1, m) =>
         match m.read_internal a2 with
         | none => MemOut.fault
         | some (b2, m) =>
           match m.read_internal a3 with
           | none => MemOut.fault
           | some (b3, m) => MemOut.ok (le32 b0 b1 b2 b3) m)
  | _, _, _, _ => MemOut.tlbMiss

/-- `Emulator::mem_atomic_swap32`: word-align, translate the address once for
read and once for write; any miss or a translation disagreement is a TLB miss
and nothing is written. -/
def Emulator.mem_atomic_swap32 (s : Emulator) (addr value : Nat) : MemOut Nat :=
  let addr := addr &&& 0xFFFFFFFC
  match s.convert_mem_address addr 0 with
  | none => MemOut.tlbMiss
  | some read_addr =>
    match s.convert_mem_address addr 1 with
    | none => MemOut.tlbMiss
    | some write_addr =>
      if read_addr ≠ write_addr then MemOut.tlbMiss
      else
        match s.memory.atomic_swap_u32 read_addr value with
        | none => MemOut.fault
        | some (prev, m) => MemOut.ok prev m

/-- `Emulator::mem_atomic_add32`: like the swap, with a wrapping add. -/
def Emulator.mem_atomic_add32 (s : Emulator) (addr value : Nat) : MemOut Nat :=
  let addr := addr &&& 0xFFFFFFFC
  match s.convert_mem_address addr 0 with
  | none => MemOut.tlbMiss
  | some read_addr =>
    match s.convert_mem_address addr 1 with
    | none => MemOut.tlbMiss
    | some write_addr =>
      if read_addr ≠ write_addr then MemOut.tlbMiss
      else
        match s.memory.atomic_add_u32 read_addr value with
        | none => MemOut.fault
        | some (prev, m) => MemOut.ok prev m

/-- Load the exception vector word at index `v` and jump there (the source's
`self.pc = self.mem_read32(v * 4).expect(..)`; an `expect` failure aborts). -/
def Emulator.vec_jump (s : Emulator) (v : Nat) : Option Emulator :=
  match s.mem_read32 (v * 4) with
  | MemOut.ok x m => some { s with pc := x, memory := m }
  | _ => none

/-- `raise_tlb_miss`: stash `(VPN | PID<<20)` in cregfile 7, save state, bump
PSR (abort on overflow), enter kmode, and jump to vector 0x83 (kernel miss) or
0x82 (user miss). -/
def Emulator.raise_tlb_miss (s : Emulator) (addr : Nat) : Option Emulator :=
  let info := (addr >>> 12) ||| mask32 (s.cregfile 1 <<< 20)
  let s := { s with cregfile := upd s.cregfile 7 info }
  let s := s.save_state
  if s.cregfile 0 = u32max then none
  else if s.kmode then
    let s := { s with kmode := true }
    let s := { s with cregfile := upd s.cregfile 0 (s.cregfile 0 + 1) }
    s.vec_jump 0x83
  else
    let s := { s with kmode := true }
    let s := { s with cregfile := upd s.cregfile 0 (s.cregfile 0 + 1) }
    s.vec_jump 0x82

/-- `raise_exc_instr`: illegal-instruction entry through vector 0x80. -/
def Emulator.raise_exc_instr (s : Emulator) : Option Emulator :=
  let s := s.save_state
  if s.cregfile 0 = u32max then none
  else
    let s := { s with kmode := true }
    let s := { s with cregfile := upd s.cregfile 0 (s.cregfile 0 + 1) }
    s.vec_jump 0x80

/-- `syscall`: enter kmode and bump PSR; `sys EXIT` (imm 1) saves PC+4 into
EPC and jumps through vector 0x01; any other imm falls to `raise_exc_instr`. -/
def Emulator.syscall (s : Emulator) (instr : Nat) : Option Emulator :=
  let imm := instr &&& 0xFF
  let s := { s with kmode := true }
  if s.cregfile 0 = u32max then none
  else
    let s := { s with cregfile := upd s.cregfile 0 (s.cregfile 0 + 1) }
    if imm = 1 then
      let s := { s with cregfile := upd s.cregfile 4 (mask32 (s.pc + 4)) }
      s.vec_jump 0x01
    else
      s.raise_exc_instr

/-- The interrupt-priority chain of `handle_interrupts`: index of the vector
taken for a given active-bit word (highest of bits 15..0). -/
def highestVec (active : Nat) : Nat :=
  if (active >>> 15) &&& 1 ≠ 0 then 0xFF
  else if (active >>> 14) &&& 1 ≠ 0 then 0xFE
  else if (active >>> 13) &&& 1 ≠ 0 then 0xFD
  else if (active >>> 12) &&& 1 ≠ 0 then 0xFC
  else if (active >>> 11) &&& 1 ≠ 0 then 0xFB
  else if (active >>> 10) &&& 1 ≠ 0 then 0xFA
  else if (active >>> 9) &&& 1 ≠ 0 then 0xF9
  else if (active >>> 8) &&& 1 ≠ 0 then 0xF8
  else if (active >>> 7) &&& 1 ≠ 0 then 0xF7
  else if (active >>> 6) &&& 1 ≠ 0 then 0xF6
  else if (active >>> 5) &&& 1 ≠ 0 then 0xF5
  else if (active >>> 4) &&& 1 ≠ 0 then 0xF4
  else if (active >>> 3) &&& 1 ≠ 0 then 0xF3
  else if (active >>> 2) &&& 1 ≠ 0 then 0xF2
  else if (active >>> 1) &&& 1 ≠ 0 then 0xF1
  else 0xF0

/-- `handle_interrupts`: when IMR bit 31 is set and `IMR & ISR` is nonzero,
wake from sleep (advancing PC past a `mode sleep`), save state, bump PSR,
enter kmode, clear IMR bit 31, and jump through the highest-priority vector
among bits 15..0 (active bits only above 15 leave PC unchanged, as in the
source's if-chain). -/
def Emulator.handle_interrupts (s : Emulator) : Option Emulator :=
  if s.cregfile 3 >>> 31 ≠ 0 then
    let active_ints := s.cregfile 3 &&& s.read_isr
    if active_ints = 0 then some s
    else
      let s := if s.asleep ∧ s.sleep_armed then { s with pc := mask32 (s.pc + 4) } else s
      let s := { s with asleep := false, sleep_armed := false }
      let s := s.save_state
      if s.cregfile 0 = u32max then none
      else
        let s := { s with cregfile := upd s.cregfile 0 (s.cregfile 0 + 1) }
        let s := { s with kmode := true }
        let s := { s with cregfile := upd s.cregfile 3 (s.cregfile 3 &&& 0x7FFFFFFF) }
        if active_ints &&& 0xFFFF ≠ 0 then s.vec_jump (highestVec active_ints)
        else some s
  else some s

/-- `check_for_interrupts`: route queued input and device bits through the
controller, take this core's pending word (copying an IPI payload into MBI and
ORing the word into ISR), then run the timer countdown against the PIT reload
(the source's kmode save/restore around the physical PIT read has no effect on
`Memory::read_u32` and is dropped). -/
def Emulator.check_for_interrupts (s : Emulator) (ic : InterruptController) :
    Option (Emulator × InterruptController) :=
  let io_nonempty := ¬ s.memory.io_buffer.isEmpty
  let ic := ic.dispatch_input s.use_uart_rx io_nonempty
  let (ints, m) := s.memory.check_interrupts
  let s := { s with memory := m }
  let ic := ic.dispatch_device_interrupts ints
  let (pending, ic) := ic.take_pending s.core_id
  let s : Emulator :=
    if pending ≠ 0 then
      let s : Emulator :=
        if pending &&& IPI_INTERRUPT_BIT ≠ 0 then
          { s with cregfile := upd s.cregfile 10 (ic.read_ipi_payload s.core_id) }
        else s
      { s with cregfile := upd s.cregfile 2 (s.cregfile 2 ||| pending) }
    else s
  if s.timer = 0 then
    match s.memory.read_u32 PIT_START with
    | none => none
    | some (v, m) =>
      let s := { s with memory := m }
      if v ≠ 0 then
        some (({ s with timer := v }).set_isr_bits TIMER_INTERRUPT_BIT, ic)
      else some (s, ic)
  else some ({ s with timer := s.timer - 1 }, ic)

/-- `decode_alu_imm`: byte-lane packing for bitwise ops, 5-bit mask for
shifts, 12-bit sign extension for arithmetic; other ops leave the caller's
`expect` to panic. -/
def decode_alu_imm (op imm : Nat) : Option Nat :=
  if op ≤ 6 then
    some ((imm &&& 0xFF) <<< (8 * ((imm >>> 8) &&& 3)))
  else if op ≤ 13 then
    some (imm &&& 0x1F)
  else if op ≤ 18 then
    some (imm ||| (0xFFFFF000 * ((imm >>> 11) &&& 1)))
  else none

/-- `update_flags`: Z from the result, S from its sign bit, V from the
sub/add signed-overflow rule; the carry flag was already handled per-op. -/
def Emulator.update_flags (s : Emulator) (result lhs rhs op : Nat) : Emulator :=
  let result_sign := result >>> 31
  let lhs_sign := lhs >>> 31
  let rhs_sign := rhs >>> 31
  let is_sub := op = 16 ∨ op = 17
  let f := s.cregfile 5
  let f := f ||| ((if result = 0 then 1 else 0) <<< 1)
  let f := f ||| ((if result_sign ≠ 0 then 1 else 0) <<< 2)
  let f := f |||
    (if is_sub then
      (if result_sign ≠ lhs_sign ∧ lhs_sign ≠ rhs_sign then 1 else 0) <<< 3
    else
      (if result_sign ≠ lhs_sign ∧ lhs_sign = rhs_sign then 1 else 0) <<< 3)
  { s with cregfile := upd s.cregfile 5 f }

/-- One ALU operation, given the second operand and the cleared-flags word:
`some (flags-after-carry, result)`, or `none` for the Rust debug-build shift
panics (`32 - r_c` underflow or a shift amount of 32 and more). -/
def aluOpResult (op r_b r_c prev_carry flg : Nat) : Option (Nat × Nat) :=
  if op = 0 then some (flg, r_b &&& r_c)
  else if op = 1 then some (flg, lnot32 (r_b &&& r_c))
  else if op = 2 then some (flg, r_b ||| r_c)
  else if op = 3 then some (flg, lnot32 (r_b ||| r_c))
  else if op = 4 then some (flg, r_b ^^^ r_c)
  else if op = 5 then some (flg, lnot32 (r_b ^^^ r_c))
  else if op = 6 then some (flg, lnot32 r_c)
  else if op = 7 then
    -- lsl
    if 32 ≤ r_c then none
    else
      let carry := if r_b >>> (if 0 < r_c then 32 - r_c else 0) ≠ 0 then 1 else 0
      some (flg ||| carry, mask32 (r_b <<< r_c))
  else if op = 8 then
    -- lsr
    if 32 ≤ r_c then none
    else
      let carry := if r_b &&& ((1 <<< r_c) - 1) ≠ 0 then 1 else 0
      some (flg ||| carry, r_b >>> r_c)
  else if op = 9 then
    -- asr
    if 32 ≤ r_c then none
    else
      let carry := r_b &&& 1
      let sign := r_b >>> 31
      some (flg ||| carry,
        (r_b >>> r_c) |||
          mask32 ((0xFFFFFFFF * sign) <<< (if 0 < r_c then 32 - r_c else 0)))
  else if op = 10 then
    -- rotl
    if 32 ≤ r_c then none
    else
      let carry := r_b >>> (if 0 < r_c then 32 - r_c else 0)
      some (flg ||| (if carry ≠ 0 then 1 else 0), mask32 ((r_b <<< r_c) ||| carry))
  else if op = 11 then
    -- rotr
    if 32 ≤ r_c then none
    else
      let carry := r_b &&& ((1 <<< r_c) - 1)
      some (flg ||| (if carry ≠ 0 then 1 else 0),
        (r_b >>> r_c) ||| mask32 (carry <<< (if 0 < r_c then 32 - r_c else 0)))
  else if op = 12 then
    -- lslc
    if 32 ≤ r_c then none
    else
      let carry := if 0 < r_c then r_b >>> (32 - r_c) else 0
      some (flg ||| (if carry ≠ 0 then 1 else 0),
        mask32 ((r_b <<< r_c) ||| (if 0 < r_c then prev_carry <<< (r_c - 1) else 0)))
  else if op = 13 then
    -- lsrc
    if 32 ≤ r_c then none
    else
      let carry := r_b &&& ((1 <<< r_c) - 1)
      some (flg ||| (if carry ≠ 0 then 1 else 0),
        (r_b >>> r_c) ||| mask32 (prev_carry <<< (if 0 < r_c then 32 - r_c else 0)))
  else if op = 14 then
    -- add (64-bit intermediate, carry from bit 32)
    let result := r_b + r_c
    some (flg ||| (if result >>> 32 ≠ 0 then 1 else 0), mask32 result)
  else if op = 15 then
    -- addc
    let result := r_c + r_b + prev_carry
    some (flg ||| (if result >>> 32 ≠ 0 then 1 else 0), mask32 result)
  else if op = 18 then
    -- sxtb
    let byte := r_c &&& 0xFF
    some (flg, if byte &&& 0x80 ≠ 0 then byte ||| 0xFFFFFF00 else byte)
  else if op = 19 then
    -- sxtd
    let half := r_c &&& 0xFFFF
    some (flg, if half &&& 0x8000 ≠ 0 then half ||| 0xFFFF0000 else half)
  else if op = 20 then some (flg, r_c &&& 0xFF)
  else if op = 21 then some (flg, r_c &&& 0xFFFF)
  else none

/-- The sub (op 16) and subb (op 17) arms of `alu_op`, which depend on the
immediate/register form.  In the subb immediate arm the source adds
`u64::from(imm)` where `imm` is the boolean form flag, i.e. the constant 1. -/
def aluSubResult (op r_b r_c prev_carry flg : Nat) (imm : Bool) : Nat × Nat :=
  if op = 16 then
    let result :=
      if imm then
        let r_b2 := mask32 (1 + lnot32 r_b)
        r_c + r_b2
      else
        let r_c2 := mask32 (1 + lnot32 r_c)
        r_c2 + r_b
    (flg ||| (if result >>> 32 ≠ 0 then 1 else 0), mask32 result)
  else
    let result :=
      if imm then
        let r_b2 := mask32 (1 + lnot32 (mask32 ((if prev_carry = 0 then 1 else 0) + r_b)))
        1 + r_b2
      else
        let r_c2 := mask32 (1 + lnot32 (mask32 ((if prev_carry = 0 then 1 else 0) + r_c)))
        r_c2 + r_b
    (flg ||| (if result >>> 32 ≠ 0 then 1 else 0), mask32 result)

/-- `alu_op`: decode operands, clear the arithmetic flags, compute the result
and carry per op, write the destination, update Z/S/V, and advance PC.  An op
code of 22 and above raises the illegal-instruction exception. -/
def Emulator.alu_op (s : Emulator) (instr : Nat) (imm : Bool) : Option Emulator :=
  let r_a := (instr >>> 22) &&& 0x1F
  let r_bn := (instr >>> 17) &&& 0x1F
  let op := if imm then (instr >>> 12) &&& 0x1F else (instr >>> 5) &&& 0x1F
  let r_b := s.get_reg r_bn
  match (if imm then decode_alu_imm op (instr &&& 0xFFF)
         else some (s.get_reg (instr &&& 0x1F))) with
  | none => none
  | some r_c =>
    let prev_carry := s.cregfile 5 &&& 1
    let s := { s with cregfile := upd s.cregfile 5 (s.cregfile 5 &&& 0xFFFFFFF0) }
    if 22 ≤ op then s.raise_exc_instr
    else
      let out :=
        if op = 16 ∨ op = 17 then
          some (aluSubResult op r_b r_c prev_carry (s.cregfile 5) imm)
        else aluOpResult op r_b r_c prev_carry (s.cregfile 5)
      match out with
      | none => none
      | some (flg, result) =>
        let s := { s with cregfile := upd s.cregfile 5 flg }
        let s := s.write_reg r_a result
        let s := s.update_flags result r_b r_c op
        some { s with pc := mask32 (s.pc + 4) }

/-- `tlb_op`: tlbr / tlbw / tlbi / tlbc on the current PID. -/
def Emulator.tlb_op (s : Emulator) (instr : Nat) : Emulator :=
  let op := (instr >>> 10) &&& 3
  let ra := (instr >>> 22) &&& 0x1F
  let rbn := (instr >>> 17) &&& 0x1F
  let rb := s.get_reg rbn
  let s :=
    if op = 0 then
      if ra ≠ 0 then
        match s.tlb.read (s.cregfile 1) (rb >>> 12) with
        | some val => s.write_reg ra val
        | none => s.write_reg ra 0
      else s
    else if op = 1 then
      let rav := s.get_reg ra
      { s with tlb := s.tlb.write (s.cregfile 1) (rb >>> 12) (rav &&& 0x7FFFFFF) }
    else if op = 2 then
      { s with tlb := s.tlb.invalidate (s.cregfile 1) (rb >>> 12) }
    else
      { s with tlb := s.tlb.clear }
  { s with pc := mask32 (s.pc + 4) }

/-- `crmv_op`: control-register moves; bypasses the r31/KSP alias on purpose.
A control index of 12 and above panics in the source array access. -/
def Emulator.crmv_op (s : Emulator) (ic : InterruptController) (instr : Nat) :
    Option (Emulator × InterruptController) :=
  let op := (instr >>> 10) &&& 3
  let ra := (instr >>> 22) &&& 0x1F
  let rb := (instr >>> 17) &&& 0x1F
  let out :=
    if op = 0 then
      let rbv := s.regfile rb
      s.write_creg ic ra rbv
    else if op = 1 then
      if ra ≠ 0 then
        match s.read_creg rb with
        | some rbv => some ({ s with regfile := upd s.regfile ra rbv }, ic)
        | none => none
      else some (s, ic)
    else if op = 2 then
      match s.read_creg rb with
      | some rbv => s.write_creg ic ra rbv
      | none => none
    else
      if ra ≠ 0 then some ({ s with regfile := upd s.regfile ra (s.regfile rb) }, ic)
      else some (s, ic)
  match out with
  | some (s, ic) => some ({ s with pc := mask32 (s.pc + 4) }, ic)
  | none => none

/-- `ipi_op`: send the MBO payload to one core (bottom 2 bits) or broadcast
(bit 11), reporting success or the target mask in rA. -/
def Emulator.ipi_op (s : Emulator) (ic : InterruptController) (instr : Nat) :
    Emulator × InterruptController :=
  let ra := (instr >>> 22) &&& 0x1F
  let all := (instr >>> 11) &&& 1 ≠ 0
  let payload := s.cregfile 11
  if all then
    let (ic, mask) := ic.send_ipi_all s.core_id payload
    let s := if ra ≠ 0 then s.write_reg ra mask else s
    ({ s with pc := mask32 (s.pc + 4) }, ic)
  else
    let target := instr &&& 0x3
    let (ic, success) := ic.send_ipi target payload
    let s := if ra ≠ 0 then s.write_reg ra (if success then 1 else 0) else s
    ({ s with pc := mask32 (s.pc + 4) }, ic)

/-- `mode_op`: run / sleep / halt.  `mode sleep` does not advance PC. -/
def Emulator.mode_op (s : Emulator) (instr : Nat) : Emulator :=
  let op := (instr >>> 10) &&& 3
  if op = 0 then { s with pc := mask32 (s.pc + 4) }
  else if op = 1 then { s with asleep := true, sleep_armed := true }
  else { s with halted := true }

/-- `rfe`: decrement PSR (a decrement from 0 would be a debug-build
underflow panic), drop kmode exactly at 0, re-enable interrupts for the rfi
variant (bit 11), and restore PC from EPC. -/
def Emulator.rfe (s : Emulator) (instr : Nat) : Option Emulator :=
  if s.cregfile 0 = 0 then none
  else
    let s := { s with cregfile := upd s.cregfile 0 (s.cregfile 0 - 1) }
    let s := if s.cregfile 0 = 0 then { s with kmode := false } else s
    let s :=
      if (instr >>> 11) &&& 1 = 1 then
        { s with cregfile := upd s.cregfile 3 (s.cregfile 3 ||| 0x80000000) }
      else s
    some { s with pc := s.cregfile 4 }

/-- `kernel_instr`: in user mode, the privileged-instruction entry through
vector 0x81 (after the source's `assert!(PSR == 0)`); in kernel mode (after
`assert!(PSR > 0)`), dispatch on bits 12..16 to the kernel sub-ops. -/
def Emulator.kernel_instr (s : Emulator) (ic : InterruptController) (instr : Nat) :
    Option (Emulator × InterruptController) :=
  if ¬ s.kmode then
    if s.cregfile 0 ≠ 0 then none
    else
      let s := s.save_state
      let s := { s with kmode := true }
      if s.cregfile 0 = u32max then none
      else
        let s := { s with cregfile := upd s.cregfile 0 (s.cregfile 0 + 1) }
        match s.vec_jump 0x81 with
        | some s => some (s, ic)
        | none => none
  else
    if s.cregfile 0 = 0 then none
    else
      let op := (instr >>> 12) &&& 0x1F
      if op = 0 then some (s.tlb_op instr, ic)
      else if op = 1 then s.crmv_op ic instr
      else if op = 2 then some (s.mode_op instr, ic)
      else if op = 3 then
        match s.rfe instr with
        | some s => some (s, ic)
        | none => none
      else if op = 4 then some (s.ipi_op ic instr)
      else
        match s.raise_exc_instr with
        | some s => some (s, ic)
        | none => none

/-- `atomic_absolute`: fadd (`type_ = 0`) or swap (`type_ = 1`) at
`rB + sign-extended 12-bit imm`; a TLB miss re-enters through
`raise_tlb_miss`. -/
def Emulator.atomic_absolute (s : Emulator) (instr : Nat) (type_ : Nat) :
    Option Emulator :=
  let r_a := (instr >>> 22) &&& 0x1F
  let r_c := (instr >>> 17) &&& 0x1F
  let r_b := (instr >>> 12) &&& 0x1F
  let imm := instr &&& 0xFFF
  let imm := imm ||| (0xFFFFF000 * ((imm >>> 11) &&& 1))
  let r_b_out := s.get_reg r_b
  let r_c_out := s.get_reg r_c
  let addr := mask32 (r_b_out + imm)
  let data :=
    if type_ = 0 then s.mem_atomic_add32 addr r_c_out
    else if type_ = 1 then s.mem_atomic_swap32 addr r_c_out
    else MemOut.fault
  match data with
  | MemOut.ok d m =>
    let s := { s with memory := m }
    let s := s.write_reg r_a d
    some { s with pc := mask32 (s.pc + 4) }
  | MemOut.tlbMiss => s.raise_tlb_miss addr
  | MemOut.fault => none

/-!
Bus lemmas: below `IO_START` the bus is plain RAM, so byte reads return the
stored byte without side effects and byte writes are pointwise updates.
-/

theorem Mem.read_internal_ram (m : Mem) (a : Nat) (h : a < IO_START) :
    m.read_internal a = some (m.ram a, m) := by
  have hh : a < 0x7FBD000 := by
    simpa only [IO_START, TILE_FRAME_BUFFER_START] using h
  unfold Mem.read_internal
  rw [if_neg (by simp only [PHYSMEM_MAX]; omega)]
  rw [if_neg (by simp only [TILE_MAP_START, TILE_MAP_SIZE]; omega)]
  rw [if_neg (by simp only [TILE_FRAME_BUFFER_START, TILE_FRAME_BUFFER_SIZE]; omega)]
  rw [if_neg (by simp only [PIXEL_FRAME_BUFFER_START, PIXEL_FRAME_BUFFER_SIZE]; omega)]
  rw [if_neg (by simp only [SD_DMA_MEM_ADDR, SD_DMA_RANGE_SIZE]; omega)]
  rw [if_neg (by simp only [SD2_DMA_MEM_ADDR, SD_DMA_RANGE_SIZE]; omega)]
  rw [if_neg (by simp only [PS2_STREAM]; omega)]
  rw [if_neg (by simp only [PS2_STREAM]; omega)]
  rw [if_neg (by simp only [SPRITE_MAP_START, SPRITE_MAP_SIZE]; omega)]
  rw [if_neg (by simp only [SPRITE_REGISTERS_START, SPRITE_REGISTERS_SIZE]; omega)]
  rw [if_neg (by simp only [TILE_V_SCROLL_START]; omega)]
  rw [if_neg (by simp only [TILE_V_SCROLL_START]; omega)]
  rw [if_neg (by simp only [TILE_H_SCROLL_START]; omega)]
  rw [if_neg (by simp only [TILE_H_SCROLL_START]; omega)]
  rw [if_neg (by simp only [TILE_SCALE_REGISTER_START]; omega)]
  rw [if_neg (by simp only [PIXEL_V_SCROLL_START]; omega)]
  rw [if_neg (by simp only [PIXEL_V_SCROLL_START]; omega)]
  rw [if_neg (by simp only [PIXEL_H_SCROLL_START]; omega)]
  rw [if_neg (by simp only [PIXEL_H_SCROLL_START]; omega)]
  rw [if_neg (by simp only [PIXEL_SCALE_REGISTER_START]; omega)]
  rw [if_neg (by simp only [SPRITE_SCALE_START, SPRITE_SCALE_SIZE, SPRITE_COUNT]; omega)]
  rw [if_neg (by simp only [VGA_STATUS_REGISTER_START]; omega)]
  rw [if_neg (by simp only [VGA_FRAME_REGISTER_START]; omega)]
  rw [if_neg (by simp only [VGA_FRAME_REGISTER_START]; omega)]
  rw [if_neg (by simp only [VGA_FRAME_REGISTER_START]; omega)]
  rw [if_neg (by simp only [VGA_FRAME_REGISTER_START]; omega)]
  rw [if_neg (by simp only [UART_TX]; omega)]
  rw [if_neg (by simp only [UART_RX]; omega)]
  rw [if_neg (by simp only [PIT_START]; omega)]
  rw [if_neg (by simp only [PIT_START]; omega)]
  rw [if_neg (by simp only [PIT_START]; omega)]
  rw [if_neg (by simp only [PIT_START]; omega)]
  rw [if_neg (by simp only [CLK_REG_START]; omega)]
  rw [if_neg (by simp only [CLK_REG_START]; omega)]
  rw [if_neg (by simp only [CLK_REG_START]; omega)]
  rw [if_neg (by simp only [CLK_REG_START]; omega)]
  rw [if_neg (by simp only [IO_START, TILE_FRAME_BUFFER_START]; omega)]

theorem Mem.write_sd_dma_mmio_below (m : Mem) (addr data base : Nat)
    (sel : SdSel) (bit : Nat) (h : addr < base) :
    m.write_sd_dma_mmio addr data base sel bit = (false, m) := by
  unfold Mem.write_sd_dma_mmio
  rw [if_pos (Or.inl h)]

theorem Mem.write_internal_ram (m : Mem) (a d : Nat) (h : a < IO_START) :
    m.write_internal a d = some { m with ram := upd m.ram a d } := by
  have hh : a < 0x7FBD000 := by
    simpa only [IO_START, TILE_FRAME_BUFFER_START] using h
  have h1 : m.write_sd_dma_mmio a d SD_DMA_MEM_ADDR SdSel.sd0 SD_INTERRUPT_BIT
      = (false, m) :=
    Mem.write_sd_dma_mmio_below m a d _ _ _ (by simp only [SD_DMA_MEM_ADDR]; omega)
  have h2 : m.write_sd_dma_mmio a d SD2_DMA_MEM_ADDR SdSel.sd1 SD2_INTERRUPT_BIT
      = (false, m) :=
    Mem.write_sd_dma_mmio_below m a d _ _ _ (by simp only [SD2_DMA_MEM_ADDR]; omega)
  unfold Mem.write_internal
  rw [if_neg (by simp only [PHYSMEM_MAX]; omega)]
  rw [if_neg (by simp only [TILE_MAP_START, TILE_MAP_SIZE]; omega)]
  rw [if_neg (by simp only [TILE_FRAME_BUFFER_START, TILE_FRAME_BUFFER_SIZE]; omega)]
  rw [if_neg (by simp only [PIXEL_FRAME_BUFFER_START, PIXEL_FRAME_BUFFER_SIZE]; omega)]
  rw [h1]
  simp only []
  rw [h2]
  simp only []
  rw [if_neg (by simp only [PS2_STREAM]; omega)]
  rw [if_neg (by simp only [UART_TX]; omega)]
  rw [if_neg (by simp only [UART_RX]; omega)]
  rw [if_neg (by simp only [TILE_V_SCROLL_START]; omega)]
  rw [if_neg (by simp only [TILE_V_SCROLL_START]; omega)]
  rw [if_neg (by simp only [TILE_H_SCROLL_START]; omega)]
  rw [if_neg (by simp only [TILE_H_SCROLL_START]; omega)]
  rw [if_neg (by simp only [TILE_SCALE_REGISTER_START]; omega)]
  rw [if_neg (by simp only [PIXEL_V_SCROLL_START]; omega)]
  rw [if_neg (by simp only [PIXEL_V_SCROLL_START]; omega)]
  rw [if_neg (by simp only [PIXEL_H_SCROLL_START]; omega)]
  rw [if_neg (by simp only [PIXEL_H_SCROLL_START]; omega)]
  rw [if_neg (by simp only [PIXEL_SCALE_REGISTER_START]; omega)]
  rw [if_neg (by simp only [SPRITE_SCALE_START, SPRITE_SCALE_SIZE, SPRITE_COUNT]; omega)]
  rw [if_neg (by simp only [SPRITE_MAP_START, SPRITE_MAP_SIZE]; omega)]
  rw [if_neg (by simp only [SPRITE_REGISTERS_START, SPRITE_REGISTERS_SIZE]; omega)]
  rw [if_neg (by simp only [PIT_START]; omega)]
  rw [if_neg (by simp only [PIT_START]; omega)]
  rw [if_neg (by simp only [PIT_START]; omega)]
  rw [if_neg (by simp only [PIT_START]; omega)]
  rw [if_neg (by simp only [CLK_REG_START]; omega)]
  rw [if_neg (by simp only [CLK_REG_START]; omega)]
  rw [if_neg (by simp only [CLK_REG_START]; omega)]
  rw [if_neg (by simp only [CLK_REG_START]; omega)]
  rw [if_neg (by simp only [VGA_STATUS_REGISTER_START]; omega)]
  rw [if_neg (by simp only [VGA_FRAME_REGISTER_START]; omega)]
  rw [if_neg (by simp only [IO_START, TILE_FRAME_BUFFER_START]; omega)]

/-- Little-endian word view of four RAM bytes (for stating vector loads). -/
def ramW32 (m : Mem) (a : Nat) : Nat :=
  le32 (m.ram a) (m.ram (a + 1)) (m.ram (a + 2)) (m.ram (a + 3))

theorem Emulator.convert_kernel (s : Emulator) (a op : Nat) (hk : s.kmode = true)
    (h : a ≤ PHYSMEM_MAX) : s.convert_mem_address a op = some a := by
  unfold Emulator.convert_mem_address
  rw [hk]
  simp [h]

theorem Emulator.mem_read32_ram (s : Emulator) (a : Nat) (hk : s.kmode = true)
    (h : a + 3 < IO_START) :
    s.mem_read32 a = MemOut.ok (ramW32 s.memory a) s.memory := by
  have hio : a + 3 < PHYSMEM_MAX := by
    simp only [IO_START, TILE_FRAME_BUFFER_START] at h
    simp only [PHYSMEM_MAX]; omega
  have hc0 : s.convert_mem_address a 0 = some a :=
    s.convert_kernel a 0 hk (by omega)
  have hc1 : s.convert_mem_address (a + 1) 0 = some (a + 1) :=
    s.convert_kernel (a + 1) 0 hk (by omega)
  have hc2 : s.convert_mem_address (a + 2) 0 = some (a + 2) :=
    s.convert_kernel (a + 2) 0 hk (by omega)
  have hc3 : s.convert_mem_address (a + 3) 0 = some (a + 3) :=
    s.convert_kernel (a + 3) 0 hk (by omega)
  unfold Emulator.mem_read32
  rw [hc0, hc1, hc2, hc3]
  simp only [Mem.read_internal_ram _ a (by omega),
    Mem.read_internal_ram _ (a + 1) (by omega),
    Mem.read_internal_ram _ (a + 2) (by omega),
    Mem.read_internal_ram _ (a + 3) (by omega), ramW32]

theorem Emulator.vec_jump_ram (s : Emulator) (v : Nat) (hk : s.kmode = true)
    (h : v * 4 + 3 < IO_START) :
    s.vec_jump v = some { s with pc := ramW32 s.memory (v * 4) } := by
  unfold Emulator.vec_jump
  rw [Emulator.mem_read32_ram s (v * 4) hk h]

theorem IO_START_lt : IO_START = 0x7FBD000 := by
  simp [IO_START, TILE_FRAME_BUFFER_START]

/-- ORing a multiple of `2 ^ k` with a remainder below `2 ^ k` is addition. -/
theorem lor_eq_add_of_mod (a b m k : Nat) (hk : 2 ^ k = m) (ha : a % m = 0)
    (hb : b < m) : a ||| b = a + b := by
  subst hk
  obtain ⟨q, rfl⟩ := Nat.dvd_of_mod_eq_zero ha
  exact (Nat.mul_add_lt_is_or hb q).symm

/-- Little-endian recomposition of the four bytes of a 32-bit word. -/
theorem le32_bytes (w : Nat) (hw : w < 4294967296) :
    le32 (mask8 w) (mask8 (w >>> 8)) (mask8 (w >>> 16)) (mask8 (w >>> 24)) = w := by
  unfold le32 mask8
  rw [Nat.shiftRight_eq_div_pow, Nat.shiftRight_eq_div_pow,
      Nat.shiftRight_eq_div_pow, Nat.shiftLeft_eq, Nat.shiftLeft_eq,
      Nat.shiftLeft_eq]
  have e8 : (2 : Nat) ^ 8 = 256 := by norm_num
  have e16 : (2 : Nat) ^ 16 = 65536 := by norm_num
  have e24 : (2 : Nat) ^ 24 = 16777216 := by norm_num
  rw [e8, e16, e24]
  rw [lor_eq_add_of_mod (w / 16777216 % 256 * 16777216) (w / 65536 % 256 * 65536)
        16777216 24 (by norm_num) (by omega) (by omega)]
  rw [lor_eq_add_of_mod (w / 16777216 % 256 * 16777216 + w / 65536 % 256 * 65536)
        (w / 256 % 256 * 256) 65536 16 (by norm_num) (by omega) (by omega)]
  rw [lor_eq_add_of_mod
        (w / 16777216 % 256 * 16777216 + w / 65536 % 256 * 65536 + w / 256 % 256 * 256)
        (w % 256) 256 8 (by norm_num) (by omega) (by omega)]
  omega

/-!
Exception-entry lemmas for the individual entry points.
-/

/-- Register effects common to vectored exception entries. -/
def entryRegs (s t : Emulator) : Prop :=
  t.cregfile 3 = s.cregfile 3 &&& 0x7FFFFFFF ∧
  t.cregfile 0 = s.cregfile 0 + 1 ∧
  t.kmode = true

theorem raise_exc_instr_spec (s : Emulator) (hpsr : s.cregfile 0 ≠ u32max) :
    ∃ t, s.raise_exc_instr = some t ∧ t.cregfile 4 = s.pc ∧ entryRegs s t ∧
      t.pc = ramW32 s.memory 0x200 ∧ t.memory = s.memory := by
  unfold Emulator.raise_exc_instr Emulator.save_state
  rw [if_neg (by simp only [upd]; norm_num; exact hpsr)]
  rw [Emulator.vec_jump_ram _ _ rfl (by rw [IO_START_lt]; norm_num)]
  refine ⟨_, rfl, ?_, ⟨?_, ?_, rfl⟩, ?_, rfl⟩ <;> simp [upd, entryRegs]

theorem raise_tlb_miss_spec (s : Emulator) (addr : Nat)
    (hpsr : s.cregfile 0 ≠ u32max) :
    ∃ t, s.raise_tlb_miss addr = some t ∧ t.cregfile 4 = s.pc ∧ entryRegs s t ∧
      t.pc = ramW32 s.memory (if s.kmode then 0x20C else 0x208) ∧
      t.memory = s.memory := by
  simp only [Emulator.raise_tlb_miss, Emulator.save_state, upd]
  norm_num
  by_cases hk : s.kmode
  · simp only [if_pos hk]
    rw [Emulator.vec_jump_ram _ _ rfl (by rw [IO_START_lt]; norm_num)]
    refine ⟨_, ⟨hpsr, rfl⟩, ?_, ?_, ?_, rfl⟩ <;> simp [upd, entryRegs, Nat.and_assoc]
  · simp only [if_neg hk]
    rw [Emulator.vec_jump_ram _ _ rfl (by rw [IO_START_lt]; norm_num)]
    refine ⟨_, ⟨hpsr, rfl⟩, ?_, ?_, ?_, rfl⟩ <;> simp [upd, entryRegs, Nat.and_assoc]

theorem syscall_exit_spec (s : Emulator) (instr : Nat)
    (himm : instr &&& 0xFF = 1) (hpsr : s.cregfile 0 ≠ u32max) :
    ∃ t, s.syscall instr = some t ∧ t.cregfile 4 = mask32 (s.pc + 4) ∧
      t.cregfile 3 = s.cregfile 3 ∧ t.cregfile 0 = s.cregfile 0 + 1 ∧
      t.kmode = true ∧ t.pc = ramW32 s.memory 0x4 ∧ t.memory = s.memory := by
  simp only [Emulator.syscall, himm, upd]
  norm_num
  rw [Emulator.vec_jump_ram _ _ rfl (by rw [IO_START_lt]; norm_num)]
  refine ⟨_, ⟨hpsr, rfl⟩, ?_, ?_, ?_, ?_, ?_, rfl⟩ <;> simp [upd]

theorem kernel_instr_priv_spec (s : Emulator) (ic : InterruptController)
    (instr : Nat) (hu : s.kmode = false) (hpsr0 : s.cregfile 0 = 0) :
    ∃ t, s.kernel_instr ic instr = some (t, ic) ∧ t.cregfile 4 = s.pc ∧
      entryRegs s t ∧ t.pc = ramW32 s.memory 0x204 ∧ t.memory = s.memory := by
  simp only [Emulator.kernel_instr, Emulator.save_state, hu, upd, u32max]
  norm_num [hpsr0]
  rw [Emulator.vec_jump_ram _ _ rfl (by rw [IO_START_lt]; norm_num)]
  refine ⟨_, rfl, ?_, ?_, ?_, rfl⟩ <;> simp [upd, entryRegs, hpsr0]

/-- The vector index taken by the priority chain lies in 0xF0 .. 0xFF. -/
theorem highestVec_mem (active : Nat) :
    0xF0 ≤ highestVec active ∧ highestVec active ≤ 0xFF := by
  unfold highestVec
  by_cases h15 : (active >>> 15) &&& 1 ≠ 0
  · rw [if_pos h15]; omega
  · rw [if_neg h15]
    by_cases h14 : (active >>> 14) &&& 1 ≠ 0
    · rw [if_pos h14]; omega
    · rw [if_neg h14]
      by_cases h13 : (active >>> 13) &&& 1 ≠ 0
      · rw [if_pos h13]; omega
      · rw [if_neg h13]
        by_cases h12 : (active >>> 12) &&& 1 ≠ 0
        · rw [if_pos h12]; omega
        · rw [if_neg h12]
          by_cases h11 : (active >>> 11) &&& 1 ≠ 0
          · rw [if_pos h11]; omega
          · rw [if_neg h11]
            by_cases h10 : (active >>> 10) &&& 1 ≠ 0
            · rw [if_pos h10]; omega
            · rw [if_neg h10]
              by_cases h9 : (active >>> 9) &&& 1 ≠ 0
              · rw [if_pos h9]; omega
              · rw [if_neg h9]
                by_cases h8 : (active >>> 8) &&& 1 ≠ 0
                · rw [if_pos h8]; omega
                · rw [if_neg h8]
                  by_cases h7 : (active >>> 7) &&& 1 ≠ 0
                  · rw [if_pos h7]; omega
                  · rw [if_neg h7]
                    by_cases h6 : (active >>> 6) &&& 1 ≠ 0
                    · rw [if_pos h6]; omega
                    · rw [if_neg h6]
                      by_cases h5 : (active >>> 5) &&& 1 ≠ 0
                      · rw [if_pos h5]; omega
                      · rw [if_neg h5]
                        by_cases h4 : (active >>> 4) &&& 1 ≠ 0
                        · rw [if_pos h4]; omega
                        · rw [if_neg h4]
                          by_cases h3 : (active >>> 3) &&& 1 ≠ 0
                          · rw [if_pos h3]; omega
                          · rw [if_neg h3]
                            by_cases h2 : (active >>> 2) &&& 1 ≠ 0
                            · rw [if_pos h2]; omega
                            · rw [if_neg h2]
                              by_cases h1 : (active >>> 1) &&& 1 ≠ 0
                              · rw [if_pos h1]; omega
                              · rw [if_neg h1]
                                omega

theorem handle_interrupts_spec (s : Emulator)
    (h31 : s.cregfile 3 >>> 31 ≠ 0)
    (hact : s.cregfile 3 &&& s.cregfile 2 ≠ 0)
    (hlow : (s.cregfile 3 &&& s.cregfile 2) &&& 0xFFFF ≠ 0)
    (hpsr : s.cregfile 0 ≠ u32max) :
    ∃ t, s.handle_interrupts = some t ∧
      t.cregfile 4 = (if s.asleep ∧ s.sleep_armed then mask32 (s.pc + 4) else s.pc) ∧
      entryRegs s t ∧ t.asleep = false ∧ t.sleep_armed = false ∧
      t.pc = ramW32 s.memory (highestVec (s.cregfile 3 &&& s.cregfile 2) * 4) ∧
      t.memory = s.memory ∧ t.cregfile 2 = s.cregfile 2 := by
  have hv := highestVec_mem (s.cregfile 3 &&& s.cregfile 2)
  simp only [Emulator.handle_interrupts, Emulator.read_isr, Emulator.save_state, upd]
  simp only [if_pos h31, if_neg hact, if_pos hlow]
  by_cases hs : s.asleep ∧ s.sleep_armed
  · simp only [if_pos hs]
    norm_num
    rw [Emulator.vec_jump_ram _ _ rfl (by rw [IO_START_lt]; omega)]
    refine ⟨_, ⟨hpsr, rfl⟩, ?_, ?_, rfl, rfl, ?_, rfl, ?_⟩ <;>
      simp [upd, entryRegs, Nat.and_assoc]
  · simp only [if_neg hs]
    norm_num
    rw [Emulator.vec_jump_ram _ _ rfl (by rw [IO_START_lt]; omega)]
    refine ⟨_, ⟨hpsr, rfl⟩, ?_, ?_, rfl, rfl, ?_, rfl, ?_⟩ <;>
      simp [upd, entryRegs, Nat.and_assoc]

/-! Concrete machines used by witnesses and counterexamples. -/

def mem0 : Mem := Mem.new (fun _ => 0) false 1

def emu0 : Emulator := Emulator.from_shared mem0 false 0

def emuMax : Emulator := { emu0 with cregfile := upd emu0.cregfile 0 u32max }

def emuU : Emulator :=
  { emu0 with kmode := false, cregfile := upd emu0.cregfile 0 0 }

def emuI : Emulator :=
  { emu0 with cregfile := upd (upd emu0.cregfile 3 0x80000001) 2 1 }

def ic1 : InterruptController := InterruptController.new 1

/-- C1 (amended): every exception entry increments PSR (and the VM aborts when
PSR is already at `u32::MAX`), enters kernel mode, and loads PC from the
corresponding low-memory vector.  The illegal-instruction, privileged,
TLB-miss, and interrupt entries also save the current PC into EPC (cregfile 4)
and clear IMR bit 31; the syscall entry instead saves PC+4 into EPC and leaves
IMR unchanged. -/
theorem exception_entry_spec (s : Emulator) (ic : InterruptController)
    (addr instr : Nat) :
    (s.cregfile 0 = u32max → s.raise_exc_instr = none) ∧
    (s.cregfile 0 ≠ u32max →
      ∃ t, s.raise_exc_instr = some t ∧ t.cregfile 4 = s.pc ∧ entryRegs s t ∧
        t.pc = ramW32 s.memory 0x200) ∧
    (s.cregfile 0 ≠ u32max →
      ∃ t, s.raise_tlb_miss addr = some t ∧ t.cregfile 4 = s.pc ∧
        entryRegs s t ∧
        t.pc = ramW32 s.memory (if s.kmode then 0x20C else 0x208)) ∧
    (s.kmode = false → s.cregfile 0 = 0 →
      ∃ t, s.kernel_instr ic instr = some (t, ic) ∧ t.cregfile 4 = s.pc ∧
        entryRegs s t ∧ t.pc = ramW32 s.memory 0x204) ∧
    (s.cregfile 3 >>> 31 ≠ 0 → s.cregfile 3 &&& s.cregfile 2 ≠ 0 →
      (s.cregfile 3 &&& s.cregfile 2) &&& 0xFFFF ≠ 0 → s.asleep = false →
      s.cregfile 0 ≠ u32max →
      ∃ t, s.handle_interrupts = some t ∧ t.cregfile 4 = s.pc ∧ entryRegs s t ∧
        t.pc = ramW32 s.memory (highestVec (s.cregfile 3 &&& s.cregfile 2) * 4)) ∧
    (instr &&& 0xFF = 1 → s.cregfile 0 ≠ u32max →
      ∃ t, s.syscall instr = some t ∧ t.cregfile 4 = mask32 (s.pc + 4) ∧
        t.cregfile 3 = s.cregfile 3 ∧ t.cregfile 0 = s.cregfile 0 + 1 ∧
        t.kmode = true ∧ t.pc = ramW32 s.memory 0x4) := by
  refine ⟨?_, ?_, ?_, ?_, ?_, ?_⟩
  · intro h
    simp [Emulator.raise_exc_instr, Emulator.save_state, upd, h]
  · intro h
    obtain ⟨t, h1, h2, h3, h4, _⟩ := raise_exc_instr_spec s h
    exact ⟨t, h1, h2, h3, h4⟩
  · intro h
    obtain ⟨t, h1, h2, h3, h4, _⟩ := raise_tlb_miss_spec s addr h
    exact ⟨t, h1, h2, h3, h4⟩
  · intro h1 h2
    obtain ⟨t, g1, g2, g3, g4, _⟩ := kernel_instr_priv_spec s ic instr h1 h2
    exact ⟨t, g1, g2, g3, g4⟩
  · intro h1 h2 h3 h4 h5
    obtain ⟨t, g1, g2, g3, _, _, g4, _, _⟩ := handle_interrupts_spec s h1 h2 h3 h5
    refine ⟨t, g1, ?_, g3, g4⟩
    rw [g2, if_neg]
    simp [h4]
  · intro h1 h2
    obtain ⟨t, g1, g2, g3, g4, g5, g6, _⟩ := syscall_exit_spec s instr h1 h2
    exact ⟨t, g1, g2, g3, g4, g5, g6⟩

/-- C1 counterexample: executing `syscall` (sys EXIT) at PC=0x400 with IMR bit
31 set saves 0x404 = PC+4 into EPC, not the current PC, and leaves IMR bit 31
set — against the claim that every entry saves the current PC and clears IMR
bit 31. -/
theorem exception_entry_syscall_counterexample :
    (let s := { emu0 with cregfile := upd emu0.cregfile 3 0x80000000 }
     s.pc = 0x400 ∧
     (s.syscall 0x78000001).map (fun t => (t.cregfile 4, t.cregfile 3)) =
       some (0x404, 0x80000000)) := by
  decide

/-- C1 witness: the amended entry description holds on concrete machines for
each entry kind. -/
theorem exception_entry_spec_witness :
    (emuMax.raise_exc_instr = none) ∧
    (∃ t, emu0.raise_exc_instr = some t ∧ t.cregfile 4 = emu0.pc ∧
      entryRegs emu0 t ∧ t.pc = ramW32 emu0.memory 0x200) ∧
    (∃ t, emu0.raise_tlb_miss 0x12345678 = some t ∧ t.cregfile 4 = emu0.pc ∧
      entryRegs emu0 t ∧
      t.pc = ramW32 emu0.memory (if emu0.kmode then 0x20C else 0x208)) ∧
    (∃ t, emuU.kernel_instr ic1 0xF8000000 = some (t, ic1) ∧
      t.cregfile 4 = emuU.pc ∧ entryRegs emuU t ∧
      t.pc = ramW32 emuU.memory 0x204) ∧
    (∃ t, emuI.handle_interrupts = some t ∧ t.cregfile 4 = emuI.pc ∧
      entryRegs emuI t ∧
      t.pc = ramW32 emuI.memory (highestVec (emuI.cregfile 3 &&& emuI.cregfile 2) * 4)) ∧
    (∃ t, emu0.syscall 0x78000001 = some t ∧ t.cregfile 4 = mask32 (emu0.pc + 4) ∧
      t.cregfile 3 = emu0.cregfile 3 ∧ t.cregfile 0 = emu0.cregfile 0 + 1 ∧
      t.kmode = true ∧ t.pc = ramW32 emu0.memory 0x4) :=
  ⟨(exception_entry_spec emuMax ic1 0 0).1 (by decide),
   (exception_entry_spec emu0 ic1 0 0).2.1 (by decide),
   (exception_entry_spec emu0 ic1 0x12345678 0).2.2.1 (by decide),
   (exception_entry_spec emuU ic1 0 0xF8000000).2.2.2.1 (by decide) (by decide),
   (exception_entry_spec emuI ic1 0 0).2.2.2.2.1 (by decide) (by decide)
     (by decide) (by decide) (by decide),
   (exception_entry_spec emu0 ic1 0 0x78000001).2.2.2.2.2 (by decide) (by decide)⟩

/-- C4: `mode sleep` at PC=P sets asleep and sleep-armed without advancing PC;
a delivered IMR-enabled interrupt clears both flags and saves EPC = P+4, and
any later rfe/rfi (with EPC intact and PSR positive) resumes at P+4, not P. -/
theorem sleep_interrupt_resume (s : Emulator) (P : Nat) (hpc : s.pc = P)
    (h31 : s.cregfile 3 >>> 31 ≠ 0) (hact : s.cregfile 3 &&& s.cregfile 2 ≠ 0)
    (hlow : (s.cregfile 3 &&& s.cregfile 2) &&& 0xFFFF ≠ 0)
    (hpsr : s.cregfile 0 ≠ u32max) :
    (s.mode_op ((1 : Nat) <<< 10)).asleep = true ∧
    (s.mode_op ((1 : Nat) <<< 10)).sleep_armed = true ∧
    (s.mode_op ((1 : Nat) <<< 10)).pc = P ∧
    (∃ t, (s.mode_op ((1 : Nat) <<< 10)).handle_interrupts = some t ∧
      t.asleep = false ∧ t.sleep_armed = false ∧
      t.cregfile 4 = mask32 (P + 4)) ∧
    (∀ (u : Emulator) (instr2 : Nat), u.cregfile 4 = mask32 (P + 4) →
      u.cregfile 0 ≠ 0 → ∃ r, u.rfe instr2 = some r ∧ r.pc = mask32 (P + 4)) := by
  have hsleep : s.mode_op ((1 : Nat) <<< 10) =
      { s with asleep := true, sleep_armed := true } := by
    simp [Emulator.mode_op]
  refine ⟨by rw [hsleep], by rw [hsleep], by rw [hsleep]; exact hpc, ?_, ?_⟩
  · rw [hsleep]
    obtain ⟨t, g1, g2, g3, g4, g5, _, _, _⟩ :=
      handle_interrupts_spec { s with asleep := true, sleep_armed := true }
        h31 hact hlow hpsr
    refine ⟨t, g1, g4, g5, ?_⟩
    rw [g2]
    simp [hpc]
  · intro u instr2 hepc hups
    by_cases h0 : u.cregfile 0 - 1 = 0 <;> by_cases hr : instr2 >>> 11 % 2 = 1 <;>
      simp [Emulator.rfe, Nat.and_one_is_mod, hups, h0, hr, upd, hepc]

/-- C4 witness: a concrete sleeping core with a pending timer interrupt. -/
theorem sleep_interrupt_resume_witness :
    ((emuI.mode_op ((1 : Nat) <<< 10)).asleep = true ∧
     (emuI.mode_op ((1 : Nat) <<< 10)).sleep_armed = true ∧
     (emuI.mode_op ((1 : Nat) <<< 10)).pc = 0x400 ∧
     (∃ t, (emuI.mode_op ((1 : Nat) <<< 10)).handle_interrupts = some t ∧
       t.asleep = false ∧ t.sleep_armed = false ∧
       t.cregfile 4 = mask32 (0x400 + 4)) ∧
     (∀ (u : Emulator) (instr2 : Nat), u.cregfile 4 = mask32 (0x400 + 4) →
       u.cregfile 0 ≠ 0 → ∃ r, u.rfe instr2 = some r ∧ r.pc = mask32 (0x400 + 4))) :=
  sleep_interrupt_resume emuI 0x400 (by decide) (by decide) (by decide)
    (by decide) (by decide)

/-- C3: `add r1, r2, r3` (register-form ALU op 14, encoded 0x4401C3) with
r2=0xFFFF_FFFF, r3=1 yields r1=0 and FLG=3, i.e. C=1 (bit 0), Z=1 (bit 1),
S=0, V=0; with r2=0x7FFF_FFFF, r3=1 it yields r1=0x8000_0000 and FLG=12,
i.e. C=0, Z=0, S=1 (bit 2), V=1 (bit 3). -/
theorem alu_add_carry_overflow :
    ((({ emu0 with regfile := upd (upd emu0.regfile 2 0xFFFFFFFF) 3 1 }).alu_op
        0x4401C3 false).map (fun t : Emulator => (t.regfile 1, t.cregfile 5)) =
      some (0, 3)) ∧
    ((({ emu0 with regfile := upd (upd emu0.regfile 2 0x7FFFFFFF) 3 1 }).alu_op
        0x4401C3 false).map (fun t : Emulator => (t.regfile 1, t.cregfile 5)) =
      some (0x80000000, 12)) := by
  decide

/-- PSR/kmode correspondence: PSR is zero exactly in user mode. -/
def psrInv (s : Emulator) : Prop := (s.cregfile 0 = 0) ↔ (s.kmode = false)

theorem vec_jump_fields (s : Emulator) (v : Nat) (t : Emulator)
    (h : s.vec_jump v = some t) :
    t.cregfile = s.cregfile ∧ t.kmode = s.kmode := by
  unfold Emulator.vec_jump at h
  cases hm : s.mem_read32 (v * 4) with
  | ok x m => rw [hm] at h; cases h; exact ⟨rfl, rfl⟩
  | tlbMiss => rw [hm] at h; cases h
  | fault => rw [hm] at h; cases h

theorem raise_exc_instr_fields (s t : Emulator) (h : s.raise_exc_instr = some t) :
    t.cregfile 0 = s.cregfile 0 + 1 ∧ t.kmode = true := by
  by_cases hpsr : s.cregfile 0 = u32max
  · have hn : s.raise_exc_instr = none := by
      simp [Emulator.raise_exc_instr, Emulator.save_state, upd, hpsr]
    rw [hn] at h
    cases h
  · obtain ⟨t', h1, _, ⟨_, h3, h4⟩, _, _⟩ := raise_exc_instr_spec s hpsr
    rw [h1] at h
    obtain rfl := Option.some.inj h
    exact ⟨h3, h4⟩

theorem raise_tlb_miss_fields (s t : Emulator) (addr : Nat)
    (h : s.raise_tlb_miss addr = some t) :
    t.cregfile 0 = s.cregfile 0 + 1 ∧ t.kmode = true := by
  by_cases hpsr : s.cregfile 0 = u32max
  · have hn : s.raise_tlb_miss addr = none := by
      simp [Emulator.raise_tlb_miss, Emulator.save_state, upd, hpsr]
    rw [hn] at h
    cases h
  · obtain ⟨t', h1, _, ⟨_, h3, h4⟩, _, _⟩ := raise_tlb_miss_spec s addr hpsr
    rw [h1] at h
    obtain rfl := Option.some.inj h
    exact ⟨h3, h4⟩

theorem syscall_fields (s t : Emulator) (instr : Nat)
    (h : s.syscall instr = some t) :
    t.kmode = true ∧ t.cregfile 0 ≠ 0 := by
  by_cases hpsr : s.cregfile 0 = u32max
  · have hn : s.syscall instr = none := by
      simp [Emulator.syscall, hpsr]
    rw [hn] at h
    cases h
  · by_cases himm : instr &&& 0xFF = 1
    · obtain ⟨t', h1, _, _, h4, h5, _, _⟩ := syscall_exit_spec s instr himm hpsr
      rw [h1] at h
      obtain rfl := Option.some.inj h
      exact ⟨h5, by omega⟩
    · simp [Emulator.syscall, himm, hpsr] at h
      have hf := raise_exc_instr_fields _ _ h
      refine ⟨hf.2, ?_⟩
      have h0 := hf.1
      simp [upd] at h0
      omega

theorem handle_interrupts_psr_fields (s t : Emulator)
    (h : s.handle_interrupts = some t) :
    t = s ∨ (t.cregfile 0 = s.cregfile 0 + 1 ∧ t.kmode = true) := by
  simp only [Emulator.handle_interrupts, Emulator.read_isr,
    Emulator.save_state] at h
  repeat' split at h
  all_goals try exact Or.inl (Option.some.inj h).symm
  all_goals try cases h
  all_goals try exact Or.inr ⟨by simp [upd], rfl⟩
  all_goals
    (obtain ⟨hc, hk⟩ := vec_jump_fields _ _ _ h
     exact Or.inr ⟨by rw [hc]; simp [upd], by rw [hk]⟩)

/-- C5 (amended): the correspondence "PSR = 0 iff user mode" is preserved by
every exception entry (illegal instruction, TLB miss, syscall, interrupt
dispatch) and by rfe; but a `crmv` write to the PSR control register (cr0)
stores the moved value without updating kmode, which is how the claimed
invariant can be broken. -/
theorem psr_kmode_correspondence (s t : Emulator) (addr instr : Nat)
    (ic : InterruptController) (hinv : psrInv s) :
    (s.raise_exc_instr = some t → psrInv t) ∧
    (s.raise_tlb_miss addr = some t → psrInv t) ∧
    (s.syscall instr = some t → psrInv t) ∧
    (s.handle_interrupts = some t → psrInv t) ∧
    (s.rfe instr = some t → psrInv t) ∧
    ((instr >>> 10) &&& 3 = 0 → (instr >>> 22) &&& 0x1F = 0 →
      ∀ ic2, s.crmv_op ic instr = some (t, ic2) →
        t.kmode = s.kmode ∧ t.cregfile 0 = s.regfile ((instr >>> 17) &&& 0x1F)) := by
  refine ⟨?_, ?_, ?_, ?_, ?_, ?_⟩
  · intro h
    obtain ⟨h0, hk⟩ := raise_exc_instr_fields s t h
    unfold psrInv
    rw [h0, hk]
    simp
  · intro h
    obtain ⟨h0, hk⟩ := raise_tlb_miss_fields s t addr h
    unfold psrInv
    rw [h0, hk]
    simp
  · intro h
    obtain ⟨hk, h0⟩ := syscall_fields s t instr h
    unfold psrInv
    rw [hk]
    simp [h0]
  · intro h
    rcases handle_interrupts_psr_fields s t h with rfl | ⟨h0, hk⟩
    · exact hinv
    · unfold psrInv
      rw [h0, hk]
      simp
  · intro h
    by_cases h0 : s.cregfile 0 = 0
    · unfold Emulator.rfe at h
      rw [if_pos h0] at h
      cases h
    · have hk : s.kmode = true := by
        cases hb : s.kmode
        · exact absurd (hinv.mpr hb) h0
        · rfl
      by_cases hz : s.cregfile 0 - 1 = 0 <;>
        by_cases hr : instr >>> 11 % 2 = 1 <;>
          (simp [Emulator.rfe, Nat.and_one_is_mod, h0, hz, hr, upd] at h;
           subst h;
           simp [psrInv, upd, hz, hk])
  · intro hop hra ic2 h
    simp [Emulator.crmv_op, Emulator.write_creg, hop, hra, upd] at h
    obtain ⟨h1, h2⟩ := h
    subst h1
    simp [upd]

/-- C5 counterexample: from the boot state (kmode = true, PSR = 1, which
satisfies the correspondence), executing the kernel instruction
`crmv cr0, r2` (0xF8041000, with r2 = 0) leaves kmode = true while PSR
becomes 0 — so "PSR=0 implies kmode is false ... including crmv writes to the
PSR control register" is false on the code. -/
theorem psr_kmode_crmv_counterexample :
    emu0.cregfile 0 = 1 ∧ emu0.kmode = true ∧
    ((emu0.kernel_instr ic1 0xF8041000).map
        (fun p : Emulator × InterruptController => (p.1.cregfile 0, p.1.kmode))
      = some (0, true)) := by
  decide

/-- C5 witness: the amended preservation statement applied on concrete
machines for each of the six clauses. -/
theorem psr_kmode_correspondence_witness :
    psrInv ((emu0.raise_exc_instr).getD emu0) ∧
    psrInv ((emu0.raise_tlb_miss 0x12345678).getD emu0) ∧
    psrInv ((emu0.syscall 0x78000001).getD emu0) ∧
    psrInv ((emuI.handle_interrupts).getD emuI) ∧
    psrInv ((emu0.rfe 0).getD emu0) ∧
    (((emu0.kernel_instr ic1 0xF8041000).getD (emu0, ic1)).1.kmode = emu0.kmode ∧
     ((emu0.kernel_instr ic1 0xF8041000).getD (emu0, ic1)).1.cregfile 0 =
       emu0.regfile 2) :=
  ⟨(psr_kmode_correspondence emu0 ((emu0.raise_exc_instr).getD emu0) 0 0 ic1
      (by unfold psrInv; decide)).1 rfl,
   (psr_kmode_correspondence emu0 ((emu0.raise_tlb_miss 0x12345678).getD emu0)
      0x12345678 0 ic1 (by unfold psrInv; decide)).2.1 rfl,
   (psr_kmode_correspondence emu0 ((emu0.syscall 0x78000001).getD emu0) 0
      0x78000001 ic1 (by unfold psrInv; decide)).2.2.1 rfl,
   (psr_kmode_correspondence emuI ((emuI.handle_interrupts).getD emuI) 0 0 ic1
      (by unfold psrInv; decide)).2.2.2.1 rfl,
   (psr_kmode_correspondence emu0 ((emu0.rfe 0).getD emu0) 0 0 ic1
      (by unfold psrInv; decide)).2.2.2.2.1 rfl,
   (psr_kmode_correspondence emu0
      ((emu0.kernel_instr ic1 0xF8041000).getD (emu0, ic1)).1 0 0x1000 ic1
      (by unfold psrInv; decide)).2.2.2.2.2 (by decide) (by decide)
      ((emu0.kernel_instr ic1 0xF8041000).getD (emu0, ic1)).2 rfl⟩

/-!
C2: the claim-side description of address translation.
-/

/-- Claim-side permission check: the R/W/X bit selected by the operation
(0 read, 1 write, 2 fetch), and additionally the U bit in user mode. -/
def permOK (v op : Nat) (kmode : Bool) : Bool :=
  (if op = 0 then decide (v &&& 0x00000001 ≠ 0)
   else if op = 1 then decide (v &&& 0x00000002 ≠ 0)
   else decide (v &&& 0x00000004 ≠ 0)) &&
  (kmode || decide (v &&& 0x00000008 ≠ 0))

/-- Claim-side TLB lookup: consult the private table at (PID, VPN) first,
then the global table at VPN; a hit requires `permOK` and yields the entry's
upper 20 bits (the PPN). -/
def lookupSpec (c : RandomCache) (pid vpn op : Nat) (kmode : Bool) :
    Option Nat :=
  match alookup c.private_table (pid, vpn) with
  | some v =>
    if permOK v op kmode then some (v &&& 0xFFFFF000)
    else
      match alookup c.global_table vpn with
      | some w => if permOK w op kmode then some (w &&& 0xFFFFF000) else none
      | none => none
  | none =>
    match alookup c.global_table vpn with
    | some w => if permOK w op kmode then some (w &&& 0xFFFFF000) else none
    | none => none

/-- Claim-side translation: in kernel mode addresses at most `PHYSMEM_MAX`
map to themselves (TLB bypass); otherwise the TLB result's PPN is composed
with the low 12-bit page offset. -/
def convert_mem_address_spec (s : Emulator) (addr op : Nat) : Option Nat :=
  if s.kmode ∧ addr ≤ PHYSMEM_MAX then some addr
  else
    (lookupSpec s.tlb (s.cregfile 1) (addr >>> 12) op s.kmode).map
      (fun ppn => ppn ||| (addr &&& 0xFFF))

theorem entryFilter_eq (v op : Nat) (kmode : Bool) (hop : op < 3) :
    entryFilter v op kmode = if permOK v op kmode then some v else none := by
  unfold entryFilter permOK
  interval_cases op <;> cases kmode <;> split_ifs <;> simp_all

theorem access_eq_lookupSpec (c : RandomCache) (pid vpn op : Nat)
    (kmode : Bool) (hop : op < 3) :
    c.access pid vpn op kmode = lookupSpec c pid vpn op kmode := by
  unfold RandomCache.access lookupSpec
  cases hpv : alookup c.private_table (pid, vpn) <;>
    cases hg : alookup c.global_table vpn <;>
      simp only [hpv, hg, entryFilter_eq _ _ _ hop, Option.bind_none,
        Option.bind_some] <;>
      split_ifs <;> simp_all

/-- C2: `convert_mem_address` implements the claim's translation: kernel-mode
accesses at or below `PHYSMEM_MAX` bypass the TLB with identity mapping;
otherwise the private table at (PID, VPN) is consulted before the global
table at VPN, a hit needs the matching R/W/X bit plus the U bit in user mode,
and the hit's PPN is composed with the low 12-bit page offset. -/
theorem convert_mem_address_matches_spec (s : Emulator) (addr op : Nat)
    (hop : op < 3) :
    s.convert_mem_address addr op = convert_mem_address_spec s addr op := by
  unfold Emulator.convert_mem_address convert_mem_address_spec
  by_cases hk : s.kmode
  · by_cases ha : addr ≤ PHYSMEM_MAX
    · simp [hk, ha]
    · simp only [hk, ha, if_true, if_false, access_eq_lookupSpec _ _ _ _ _ hop]
      rw [if_neg (by simp [ha])]
      cases hl : lookupSpec s.tlb (s.cregfile 1) (addr >>> 12) op true <;>
        simp [hl]
  · simp only [hk, Bool.false_eq_true, if_false,
      access_eq_lookupSpec _ _ _ _ _ hop]
    rw [if_neg (by simp [hk])]
    cases hl : lookupSpec s.tlb (s.cregfile 1) (addr >>> 12) op false <;>
      simp [hl]

/-- Concrete user-mode machine with one private TLB entry for the C2
witness: PID 5, VPN 0x12345 mapped to PPN 0x77000 with R|W|X|U permissions. -/
def emuT2 : Emulator :=
  { emu0 with kmode := false,
              cregfile := upd emu0.cregfile 1 5,
              tlb := (RandomCache.new 32).write 5 0x12345 0x7700F }

/-- C2 witness: the translation equivalence evaluated on a concrete machine;
the user-mode read of 0x12345ABC hits the entry and yields 0x77ABC. -/
theorem convert_mem_address_matches_spec_witness :
    emuT2.convert_mem_address 0x12345ABC 0 =
      convert_mem_address_spec emuT2 0x12345ABC 0 ∧
    emuT2.convert_mem_address 0x12345ABC 0 = some 0x77ABC :=
  ⟨convert_mem_address_matches_spec emuT2 0x12345ABC 0 (by decide), by decide⟩

/-!
C8: SD DMA start-failure reporting.
-/

theorem read_sd_dma_mmio_err_reg (base : Nat) (sd : SdCard) :
    read_sd_dma_mmio (base + SD_DMA_OFFSET_ERR) base sd =
      some (sd.dma_err &&& 0xFF) := by
  unfold read_sd_dma_mmio
  rw [if_neg (by simp only [SD_DMA_OFFSET_ERR, SD_DMA_RANGE_SIZE]; omega),
    if_neg (by simp only [SD_DMA_OFFSET_ERR, SD_DMA_OFFSET_MEM_ADDR]; omega),
    if_neg (by simp only [SD_DMA_OFFSET_ERR, SD_DMA_OFFSET_SD_BLOCK]; omega),
    if_neg (by simp only [SD_DMA_OFFSET_ERR, SD_DMA_OFFSET_LEN]; omega),
    if_neg (by simp only [SD_DMA_OFFSET_ERR, SD_DMA_OFFSET_CTRL]; omega),
    if_neg (by simp only [SD_DMA_OFFSET_ERR, SD_DMA_OFFSET_STATUS]; omega)]
  unfold read_reg_byte
  simp

theorem read_sd_dma_mmio_status_reg (base : Nat) (sd : SdCard)
    (herr : sd.dma_err ≠ SD_DMA_ERR_NONE) :
    read_sd_dma_mmio (base + SD_DMA_OFFSET_STATUS) base sd =
      some ((sd.dma_status ||| SD_DMA_STATUS_ERR) &&& 0xFF) := by
  unfold read_sd_dma_mmio
  rw [if_neg (by simp only [SD_DMA_OFFSET_STATUS, SD_DMA_RANGE_SIZE]; omega),
    if_neg (by simp only [SD_DMA_OFFSET_STATUS, SD_DMA_OFFSET_MEM_ADDR]; omega),
    if_neg (by simp only [SD_DMA_OFFSET_STATUS, SD_DMA_OFFSET_SD_BLOCK]; omega),
    if_neg (by simp only [SD_DMA_OFFSET_STATUS, SD_DMA_OFFSET_LEN]; omega),
    if_neg (by simp only [SD_DMA_OFFSET_STATUS, SD_DMA_OFFSET_CTRL]; omega),
    if_pos (by simp only [SD_DMA_OFFSET_STATUS]; omega)]
  rw [if_pos herr]
  unfold read_reg_byte
  simp

/-- C8 (amended): when `start_dma` fails, the error code is surfaced in the
ERR register and readable there; on the busy failure the STATUS register only
gains the ERR bit (its DONE bit is whatever it was before, and BUSY is kept),
while only the zero-length failure sets STATUS to exactly DONE|ERR; the
failed start returns no interrupt except that the zero-length path returns
the CTRL IRQ-enable flag. -/
theorem sd_dma_start_error_spec (sd : SdCard) :
    (sd.dma_status &&& SD_DMA_STATUS_BUSY ≠ 0 →
      (sd.start_dma).1.dma_err = SD_DMA_ERR_BUSY ∧
      (sd.start_dma).1.dma_status = sd.dma_status ||| SD_DMA_STATUS_ERR ∧
      (sd.start_dma).1.dma_status &&& SD_DMA_STATUS_DONE =
        sd.dma_status &&& SD_DMA_STATUS_DONE ∧
      (sd.start_dma).2 = false) ∧
    (sd.dma_status &&& SD_DMA_STATUS_BUSY = 0 →
     sd.dma_len &&& 0xFFFFFFFC = 0 →
      (sd.start_dma).1.dma_err = SD_DMA_ERR_ZERO_LEN ∧
      (sd.start_dma).1.dma_status =
        SD_DMA_STATUS_DONE ||| SD_DMA_STATUS_ERR ∧
      ((sd.start_dma).2 = true ↔
        sd.dma_ctrl &&& SD_DMA_CTRL_IRQ_ENABLE ≠ 0)) ∧
    (∀ base, (sd.start_dma).1.dma_err ≠ SD_DMA_ERR_NONE →
      read_sd_dma_mmio (base + SD_DMA_OFFSET_ERR) base (sd.start_dma).1 =
        some ((sd.start_dma).1.dma_err &&& 0xFF) ∧
      read_sd_dma_mmio (base + SD_DMA_OFFSET_STATUS) base (sd.start_dma).1 =
        some (((sd.start_dma).1.dma_status ||| SD_DMA_STATUS_ERR) &&& 0xFF)) := by
  refine ⟨?_, ?_, ?_⟩
  · intro hb
    simp only [SdCard.start_dma]
    rw [if_pos hb]
    refine ⟨rfl, rfl, ?_, rfl⟩
    show (sd.dma_status ||| SD_DMA_STATUS_ERR) &&& SD_DMA_STATUS_DONE =
      sd.dma_status &&& SD_DMA_STATUS_DONE
    simp only [SD_DMA_STATUS_ERR, SD_DMA_STATUS_DONE]
    apply Nat.eq_of_testBit_eq
    intro i
    rcases eq_or_ne i 1 with h | h
    · subst h
      simp [Nat.testBit_or, Nat.testBit_and,
        show Nat.testBit 4 1 = false from rfl]
    · have h2 : Nat.testBit 2 i = false := by
        rw [show (2 : Nat) = 2 ^ 1 from rfl,
          Nat.testBit_two_pow_of_ne (Ne.symm h)]
      simp [Nat.testBit_or, Nat.testBit_and, h2]
  · intro hb hl
    simp only [SdCard.start_dma]
    rw [if_neg (by exact fun h => h hb), if_pos hl]
    simp
  · intro base herr
    exact ⟨read_sd_dma_mmio_err_reg base (sd.start_dma).1,
      read_sd_dma_mmio_status_reg base (sd.start_dma).1 herr⟩

/-- Concrete busy SD card: a transfer is in flight (STATUS.BUSY set). -/
def sdBusy : SdCard :=
  { SdCard.new 1 with dma_status := SD_DMA_STATUS_BUSY, dma_len := 8 }

/-- C8 counterexample: starting DMA while the engine is busy sets ERR=Busy
and the STATUS.ERR bit, but leaves STATUS.DONE clear — the claim's
"DONE+ERR status set" does not hold on the busy failure path. -/
theorem sd_dma_busy_counterexample :
    (sdBusy.start_dma).1.dma_err = SD_DMA_ERR_BUSY ∧
    (sdBusy.start_dma).1.dma_status &&& SD_DMA_STATUS_ERR ≠ 0 ∧
    (sdBusy.start_dma).1.dma_status &&& SD_DMA_STATUS_DONE = 0 := by
  refine ⟨rfl, by decide, by decide⟩

/-- C8 witness: the amended theorem applied to the busy card and to a fresh
card with zero length; both hypotheses hold by evaluation. -/
theorem sd_dma_start_error_spec_witness :
    (sdBusy.dma_status &&& SD_DMA_STATUS_BUSY ≠ 0 ∧
      (sdBusy.start_dma).1.dma_err = SD_DMA_ERR_BUSY ∧
      (sdBusy.start_dma).1.dma_status =
        sdBusy.dma_status ||| SD_DMA_STATUS_ERR) ∧
    ((SdCard.new 1).dma_len &&& 0xFFFFFFFC = 0 ∧
      ((SdCard.new 1).start_dma).1.dma_err = SD_DMA_ERR_ZERO_LEN ∧
      ((SdCard.new 1).start_dma).1.dma_status =
        SD_DMA_STATUS_DONE ||| SD_DMA_STATUS_ERR) ∧
    read_sd_dma_mmio (SD_DMA_MEM_ADDR + SD_DMA_OFFSET_ERR) SD_DMA_MEM_ADDR
        (sdBusy.start_dma).1 =
      some ((sdBusy.start_dma).1.dma_err &&& 0xFF) := by
  have h1 := (sd_dma_start_error_spec sdBusy).1 (by decide)
  have h2 := (sd_dma_start_error_spec (SdCard.new 1)).2.1 (by decide) (by decide)
  have h3 := ((sd_dma_start_error_spec sdBusy).2.2 SD_DMA_MEM_ADDR
    (by decide)).1
  exact ⟨⟨by decide, h1.1, h1.2.1⟩, ⟨by decide, h2.1, h2.2.1⟩, h3⟩

/-!
C9: little-endian write/read roundtrip on plain RAM.
-/

theorem and4align (a : Nat) (h4 : a % 4 = 0) (hlt : a < 4294967296) :
    a &&& 0xFFFFFFFC = a := by
  apply Nat.eq_of_testBit_eq
  intro i
  rw [Nat.testBit_and]
  by_cases h32 : 32 ≤ i
  · have hz : a.testBit i = false := by
      apply Nat.testBit_eq_false_of_lt
      calc a < 4294967296 := hlt
        _ = 2 ^ 32 := by norm_num
        _ ≤ 2 ^ i := Nat.pow_le_pow_right (by norm_num) h32
    simp [hz]
  · push_neg at h32
    simp only [Nat.testBit_to_div_mod]
    interval_cases i <;> simp_all <;> omega

theorem Mem.read_u32_internal_ram (m : Mem) (a : Nat) (h : a + 3 < IO_START) :
    m.read_u32_internal a = some (ramW32 m a, m) := by
  unfold Mem.read_u32_internal
  simp only [Mem.read_internal_ram m a (by omega),
    Mem.read_internal_ram m (a + 1) (by omega),
    Mem.read_internal_ram m (a + 2) (by omega),
    Mem.read_internal_ram m (a + 3) (by omega), ramW32, le32]

def wbytes (f : Nat → Nat) (a d : Nat) : Nat → Nat :=
  upd (upd (upd (upd f a (mask8 d)) (a + 1) (mask8 (d >>> 8)))
    (a + 2) (mask8 (d >>> 16))) (a + 3) (mask8 (d >>> 24))

theorem Mem.write_u32_internal_ram (m : Mem) (a d : Nat)
    (h : a + 3 < IO_START) :
    m.write_u32_internal a d = some { m with ram := wbytes m.ram a d } := by
  unfold wbytes
  unfold Mem.write_u32_internal
  rw [Mem.write_internal_ram m a (mask8 d) (by omega)]
  simp only []
  rw [Mem.write_internal_ram _ (a + 1) (mask8 (d >>> 8)) (by omega)]
  simp only []
  rw [Mem.write_internal_ram _ (a + 2) (mask8 (d >>> 16)) (by omega)]
  simp only []
  rw [Mem.write_internal_ram _ (a + 3) (mask8 (d >>> 24)) (by omega)]

/-- C9: writing the four little-endian bytes of a 32-bit word `w` at a
word-aligned RAM address `a` (below every device register) and reading the
32-bit word back returns `w`: multi-byte reads compose constituent bytes in
little-endian order, so write-then-read is the identity on the word. -/
theorem write_read_roundtrip (m : Mem) (a w : Nat) (hw : w < 4294967296)
    (ha4 : a % 4 = 0) (hio : a + 3 < IO_START) :
    ∃ m', m.write_u32_internal a w = some m' ∧
      m'.read_u32_internal a = some (w, m') ∧
      m'.read_u32 a = some (w, m') := by
  have ha32 : a < 4294967296 := by
    have := IO_START_lt
    omega
  have hb : ramW32 { m with ram := wbytes m.ram a w } a = w := by
    have e0 : a ≠ a + 1 := by omega
    have e1 : a ≠ a + 2 := by omega
    have e2 : a ≠ a + 3 := by omega
    have e3 : a + 1 ≠ a + 2 := by omega
    have e4 : a + 1 ≠ a + 3 := by omega
    have e5 : a + 2 ≠ a + 3 := by omega
    simp only [ramW32, wbytes, upd, if_pos rfl, if_neg e0, if_neg e1,
      if_neg e2, if_neg e3, if_neg e4, if_neg e5]
    simp only [if_neg (Ne.symm e2), if_neg (Ne.symm e4), if_neg (Ne.symm e5),
      if_pos rfl]
    exact le32_bytes w hw
  refine ⟨_, Mem.write_u32_internal_ram m a w hio, ?_, ?_⟩
  · rw [Mem.read_u32_internal_ram _ a hio, hb]
  · unfold Mem.read_u32
    rw [and4align a ha4 ha32, Mem.read_u32_internal_ram _ a hio, hb]

/-- C9 witness: the roundtrip evaluated at RAM address 0x100 with the word
0xDEADBEEF on the fresh memory. -/
theorem write_read_roundtrip_witness :
    ∃ m', mem0.write_u32_internal 0x100 0xDEADBEEF = some m' ∧
      m'.read_u32_internal 0x100 = some (0xDEADBEEF, m') ∧
      m'.read_u32 0x100 = some (0xDEADBEEF, m') :=
  write_read_roundtrip mem0 0x100 0xDEADBEEF (by norm_num) (by norm_num)
    (by rw [IO_START_lt]; norm_num)

/-!
C10: atomic read-modify-write happens only under agreeing translations.
-/

theorem raise_tlb_miss_memory (s t : Emulator) (addr : Nat)
    (h : s.raise_tlb_miss addr = some t) : t.memory = s.memory := by
  by_cases hpsr : s.cregfile 0 = u32max
  · have hn : s.raise_tlb_miss addr = none := by
      simp [Emulator.raise_tlb_miss, Emulator.save_state, upd, hpsr]
    rw [hn] at h
    cases h
  · obtain ⟨t', h1, _, _, _, hm⟩ := raise_tlb_miss_spec s addr hpsr
    rw [h1] at h
    obtain rfl := Option.some.inj h
    exact hm

/-- The effective virtual address decoded by `atomic_absolute`. -/
def atomicAddr (s : Emulator) (instr : Nat) : Nat :=
  mask32 (s.get_reg ((instr >>> 12) &&& 0x1F) +
    ((instr &&& 0xFFF) ||| (0xFFFFF000 * (((instr &&& 0xFFF) >>> 11) &&& 1))))

/-- New memory word of the atomic RMW: wrapping add for fadd, raw for swap. -/
def rmwVal (ty prev value : Nat) : Nat :=
  if ty = 0 then mask32 (prev + value) else value

/-- RAM after the atomic RMW writes its new word at `p`. -/
def rmwMem (m : Mem) (p v : Nat) : Mem := { m with ram := wbytes m.ram p v }

/-- Machine state produced by a successful `atomic_absolute` at physical
word `p`: memory updated, previous word written to `r_a`, PC advanced. -/
def rmwResult (s : Emulator) (instr ty p : Nat) : Emulator :=
  let prev := ramW32 s.memory p
  let v := rmwVal ty prev (s.get_reg ((instr >>> 17) &&& 0x1F))
  let s1 := { s with memory := rmwMem s.memory p v }
  let s2 := s1.write_reg ((instr >>> 22) &&& 0x1F) prev
  { s2 with pc := mask32 (s2.pc + 4) }

/-- C10: an atomic fadd or swap performs its read-modify-write only when the
word-aligned address translates to the same physical address for a read and
for a write; if either translation misses or the two disagree, the
instruction instead raises a TLB miss on the unmasked effective address,
which leaves memory unchanged; when both translations agree on a word-aligned
RAM address `p`, the RMW result is exactly `rmwResult`. -/
theorem atomic_rmw_translation (s : Emulator) (instr ty : Nat)
    (hty : ty = 0 ∨ ty = 1) :
    ((s.convert_mem_address (atomicAddr s instr &&& 0xFFFFFFFC) 0 = none ∨
      s.convert_mem_address (atomicAddr s instr &&& 0xFFFFFFFC) 1 = none ∨
      (∃ p q, p ≠ q ∧
        s.convert_mem_address (atomicAddr s instr &&& 0xFFFFFFFC) 0 = some p ∧
        s.convert_mem_address (atomicAddr s instr &&& 0xFFFFFFFC) 1 = some q)) →
      s.atomic_absolute instr ty = s.raise_tlb_miss (atomicAddr s instr) ∧
      ∀ t, s.raise_tlb_miss (atomicAddr s instr) = some t →
        t.memory = s.memory) ∧
    (∀ p,
      s.convert_mem_address (atomicAddr s instr &&& 0xFFFFFFFC) 0 = some p →
      s.convert_mem_address (atomicAddr s instr &&& 0xFFFFFFFC) 1 = some p →
      p % 4 = 0 → p + 3 < IO_START →
      s.atomic_absolute instr ty = some (rmwResult s instr ty p)) := by
  constructor
  · intro hmiss
    refine ⟨?_, fun t ht => raise_tlb_miss_memory s t _ ht⟩
    simp only [atomicAddr] at hmiss ⊢
    rcases hty with rfl | rfl
    · simp only [Emulator.atomic_absolute, Emulator.mem_atomic_add32]
      simp only [if_true]
      rcases hmiss with h0 | h1 | ⟨p, q, hpq, hp, hq⟩
      · simp only [h0]
      · cases hc0 : s.convert_mem_address
            (mask32 (s.get_reg ((instr >>> 12) &&& 0x1F) +
              ((instr &&& 0xFFF) |||
                (0xFFFFF000 * (((instr &&& 0xFFF) >>> 11) &&& 1)))) &&&
              0xFFFFFFFC) 0 <;>
          simp only [hc0, h1]
      · simp only [hp, hq]
        rw [if_pos hpq]
    · simp only [Emulator.atomic_absolute, Emulator.mem_atomic_swap32]
      rw [if_neg (by omega)]
      simp only [if_true]
      rcases hmiss with h0 | h1 | ⟨p, q, hpq, hp, hq⟩
      · simp only [h0]
      · cases hc0 : s.convert_mem_address
            (mask32 (s.get_reg ((instr >>> 12) &&& 0x1F) +
              ((instr &&& 0xFFF) |||
                (0xFFFFF000 * (((instr &&& 0xFFF) >>> 11) &&& 1)))) &&&
              0xFFFFFFFC) 0 <;>
          simp only [hc0, h1]
      · simp only [hp, hq]
        rw [if_pos hpq]
  · intro p h0 h1 h4 hio
    have h32 : p < 4294967296 := by
      have := IO_START_lt
      omega
    have hpm : p &&& 0xFFFFFFFC = p := and4align p h4 h32
    simp only [atomicAddr] at h0 h1
    rcases hty with rfl | rfl
    · simp only [Emulator.atomic_absolute, Emulator.mem_atomic_add32]
      simp only [if_true]
      simp only [h0, h1]
      rw [if_neg (fun hc => hc rfl)]
      simp only [Mem.atomic_add_u32, hpm,
        Mem.read_u32_internal_ram _ p hio]
      rw [Mem.write_u32_internal_ram _ p _ (by omega)]
      simp only [rmwResult, rmwMem, rmwVal, atomicAddr]
      simp only [if_true]
    · simp only [Emulator.atomic_absolute, Emulator.mem_atomic_swap32]
      rw [if_neg (by omega)]
      simp only [if_true]
      simp only [h0, h1]
      rw [if_neg (fun hc => hc rfl)]
      simp only [Mem.atomic_swap_u32, hpm,
        Mem.read_u32_internal_ram _ p hio]
      rw [Mem.write_u32_internal_ram _ p _ (by omega)]
      simp only [rmwResult, rmwMem, rmwVal, atomicAddr]
      rw [if_neg (by norm_num)]

/-- C10 witness: the agreeing-translation clause on the kernel-mode boot
state (identity mapping at word 0x100) and the miss clause on the user-mode
state with an empty TLB. -/
theorem atomic_rmw_translation_witness :
    emu0.atomic_absolute 0x80000100 0 =
      some (rmwResult emu0 0x80000100 0 0x100) ∧
    emuU.atomic_absolute 0x80000100 1 =
      emuU.raise_tlb_miss (atomicAddr emuU 0x80000100) := by
  constructor
  · exact (atomic_rmw_translation emu0 0x80000100 0 (Or.inl rfl)).2 0x100
      (by decide) (by decide) (by decide) (by rw [IO_START_lt]; norm_num)
  · exact ((atomic_rmw_translation emuU 0x80000100 1 (Or.inr rfl)).1
      (Or.inl (by decide))).1


/-!
Reads of the PIT reload register always succeed and leave memory
untouched, so the timer branch of `check_for_interrupts` cannot fail.
-/

theorem Mem.read_internal_pit0 (m : Mem) :
    m.read_internal PIT_START = some (m.pit.1, m) := by
  unfold Mem.read_internal
  rw [if_neg (by simp only [PIT_START, PHYSMEM_MAX]; omega)]
  rw [if_neg (by simp only [PIT_START, TILE_MAP_START, TILE_MAP_SIZE]; omega)]
  rw [if_neg (by simp only [PIT_START, TILE_FRAME_BUFFER_START, TILE_FRAME_BUFFER_SIZE]; omega)]
  rw [if_neg (by simp only [PIT_START, PIXEL_FRAME_BUFFER_START, PIXEL_FRAME_BUFFER_SIZE]; omega)]
  rw [if_neg (by simp only [PIT_START, SD_DMA_MEM_ADDR, SD_DMA_RANGE_SIZE]; omega)]
  rw [if_neg (by simp only [PIT_START, SD2_DMA_MEM_ADDR, SD_DMA_RANGE_SIZE]; omega)]
  rw [if_neg (by simp only [PIT_START, PS2_STREAM]; omega)]
  rw [if_neg (by simp only [PIT_START, PS2_STREAM]; omega)]
  rw [if_neg (by simp only [PIT_START, SPRITE_MAP_START, SPRITE_MAP_SIZE]; omega)]
  rw [if_neg (by simp only [PIT_START, SPRITE_REGISTERS_START, SPRITE_REGISTERS_SIZE]; omega)]
  rw [if_neg (by simp only [PIT_START, TILE_V_SCROLL_START]; omega)]
  rw [if_neg (by simp only [PIT_START, TILE_V_SCROLL_START]; omega)]
  rw [if_neg (by simp only [PIT_START, TILE_H_SCROLL_START]; omega)]
  rw [if_neg (by simp only [PIT_START, TILE_H_SCROLL_START]; omega)]
  rw [if_neg (by simp only [PIT_START, TILE_SCALE_REGISTER_START]; omega)]
  rw [if_neg (by simp only [PIT_START, PIXEL_V_SCROLL_START]; omega)]
  rw [if_neg (by simp only [PIT_START, PIXEL_V_SCROLL_START]; omega)]
  rw [if_neg (by simp only [PIT_START, PIXEL_H_SCROLL_START]; omega)]
  rw [if_neg (by simp only [PIT_START, PIXEL_H_SCROLL_START]; omega)]
  rw [if_neg (by simp only [PIT_START, PIXEL_SCALE_REGISTER_START]; omega)]
  rw [if_neg (by simp only [PIT_START, SPRITE_SCALE_START, SPRITE_SCALE_SIZE, SPRITE_COUNT]; omega)]
  rw [if_neg (by simp only [PIT_START, VGA_STATUS_REGISTER_START]; omega)]
  rw [if_neg (by simp only [PIT_START, VGA_FRAME_REGISTER_START]; omega)]
  rw [if_neg (by simp only [PIT_START, VGA_FRAME_REGISTER_START]; omega)]
  rw [if_neg (by simp only [PIT_START, VGA_FRAME_REGISTER_START]; omega)]
  rw [if_neg (by simp only [PIT_START, VGA_FRAME_REGISTER_START]; omega)]
  rw [if_neg (by simp only [PIT_START, UART_TX]; omega)]
  rw [if_neg (by simp only [PIT_START, UART_RX]; omega)]
  rw [if_pos rfl]

theorem Mem.read_internal_pit1 (m : Mem) :
    m.read_internal (PIT_START + 1) = some (m.pit.2.1, m) := by
  unfold Mem.read_internal
  rw [if_neg (by simp only [PIT_START, PHYSMEM_MAX]; omega)]
  rw [if_neg (by simp only [PIT_START, TILE_MAP_START, TILE_MAP_SIZE]; omega)]
  rw [if_neg (by simp only [PIT_START, TILE_FRAME_BUFFER_START, TILE_FRAME_BUFFER_SIZE]; omega)]
  rw [if_neg (by simp only [PIT_START, PIXEL_FRAME_BUFFER_START, PIXEL_FRAME_BUFFER_SIZE]; omega)]
  rw [if_neg (by simp only [PIT_START, SD_DMA_MEM_ADDR, SD_DMA_RANGE_SIZE]; omega)]
  rw [if_neg (by simp only [PIT_START, SD2_DMA_MEM_ADDR, SD_DMA_RANGE_SIZE]; omega)]
  rw [if_neg (by simp only [PIT_START, PS2_STREAM]; omega)]
  rw [if_neg (by simp only [PIT_START, PS2_STREAM]; omega)]
  rw [if_neg (by simp only [PIT_START, SPRITE_MAP_START, SPRITE_MAP_SIZE]; omega)]
  rw [if_neg (by simp only [PIT_START, SPRITE_REGISTERS_START, SPRITE_REGISTERS_SIZE]; omega)]
  rw [if_neg (by simp only [PIT_START, TILE_V_SCROLL_START]; omega)]
  rw [if_neg (by simp only [PIT_START, TILE_V_SCROLL_START]; omega)]
  rw [if_neg (by simp only [PIT_START, TILE_H_SCROLL_START]; omega)]
  rw [if_neg (by simp only [PIT_START, TILE_H_SCROLL_START]; omega)]
  rw [if_neg (by simp only [PIT_START, TILE_SCALE_REGISTER_START]; omega)]
  rw [if_neg (by simp only [PIT_START, PIXEL_V_SCROLL_START]; omega)]
  rw [if_neg (by simp only [PIT_START, PIXEL_V_SCROLL_START]; omega)]
  rw [if_neg (by simp only [PIT_START, PIXEL_H_SCROLL_START]; omega)]
  rw [if_neg (by simp only [PIT_START, PIXEL_H_SCROLL_START]; omega)]
  rw [if_neg (by simp only [PIT_START, PIXEL_SCALE_REGISTER_START]; omega)]
  rw [if_neg (by simp only [PIT_START, SPRITE_SCALE_START, SPRITE_SCALE_SIZE, SPRITE_COUNT]; omega)]
  rw [if_neg (by simp only [PIT_START, VGA_STATUS_REGISTER_START]; omega)]
  rw [if_neg (by simp only [PIT_START, VGA_FRAME_REGISTER_START]; omega)]
  rw [if_neg (by simp only [PIT_START, VGA_FRAME_REGISTER_START]; omega)]
  rw [if_neg (by simp only [PIT_START, VGA_FRAME_REGISTER_START]; omega)]
  rw [if_neg (by simp only [PIT_START, VGA_FRAME_REGISTER_START]; omega)]
  rw [if_neg (by simp only [PIT_START, UART_TX]; omega)]
  rw [if_neg (by simp only [PIT_START, UART_RX]; omega)]
  rw [if_neg (by omega)]
  rw [if_pos rfl]

theorem Mem.read_internal_pit2 (m : Mem) :
    m.read_internal (PIT_START + 2) = some (m.pit.2.2.1, m) := by
  unfold Mem.read_internal
  rw [if_neg (by simp only [PIT_START, PHYSMEM_MAX]; omega)]
  rw [if_neg (by simp only [PIT_START, TILE_MAP_START, TILE_MAP_SIZE]; omega)]
  rw [if_neg (by simp only [PIT_START, TILE_FRAME_BUFFER_START, TILE_FRAME_BUFFER_SIZE]; omega)]
  rw [if_neg (by simp only [PIT_START, PIXEL_FRAME_BUFFER_START, PIXEL_FRAME_BUFFER_SIZE]; omega)]
  rw [if_neg (by simp only [PIT_START, SD_DMA_MEM_ADDR, SD_DMA_RANGE_SIZE]; omega)]
  rw [if_neg (by simp only [PIT_START, SD2_DMA_MEM_ADDR, SD_DMA_RANGE_SIZE]; omega)]
  rw [if_neg (by simp only [PIT_START, PS2_STREAM]; omega)]
  rw [if_neg (by simp only [PIT_START, PS2_STREAM]; omega)]
  rw [if_neg (by simp only [PIT_START, SPRITE_MAP_START, SPRITE_MAP_SIZE]; omega)]
  rw [if_neg (by simp only [PIT_START, SPRITE_REGISTERS_START, SPRITE_REGISTERS_SIZE]; omega)]
  rw [if_neg (by simp only [PIT_START, TILE_V_SCROLL_START]; omega)]
  rw [if_neg (by simp only [PIT_START, TILE_V_SCROLL_START]; omega)]
  rw [if_neg (by simp only [PIT_START, TILE_H_SCROLL_START]; omega)]
  rw [if_neg (by simp only [PIT_START, TILE_H_SCROLL_START]; omega)]
  rw [if_neg (by simp only [PIT_START, TILE_SCALE_REGISTER_START]; omega)]
  rw [if_neg (by simp only [PIT_START, PIXEL_V_SCROLL_START]; omega)]
  rw [if_neg (by simp only [PIT_START, PIXEL_V_SCROLL_START]; omega)]
  rw [if_neg (by simp only [PIT_START, PIXEL_H_SCROLL_START]; omega)]
  rw [if_neg (by simp only [PIT_START, PIXEL_H_SCROLL_START]; omega)]
  rw [if_neg (by simp only [PIT_START, PIXEL_SCALE_REGISTER_START]; omega)]
  rw [if_neg (by simp only [PIT_START, SPRITE_SCALE_START, SPRITE_SCALE_SIZE, SPRITE_COUNT]; omega)]
  rw [if_neg (by simp only [PIT_START, VGA_STATUS_REGISTER_START]; omega)]
  rw [if_neg (by simp only [PIT_START, VGA_FRAME_REGISTER_START]; omega)]
  rw [if_neg (by simp only [PIT_START, VGA_FRAME_REGISTER_START]; omega)]
  rw [if_neg (by simp only [PIT_START, VGA_FRAME_REGISTER_START]; omega)]
  rw [if_neg (by simp only [PIT_START, VGA_FRAME_REGISTER_START]; omega)]
  rw [if_neg (by simp only [PIT_START, UART_TX]; omega)]
  rw [if_neg (by simp only [PIT_START, UART_RX]; omega)]
  rw [if_neg (by omega)]
  rw [if_neg (by omega)]
  rw [if_pos rfl]

theorem Mem.read_internal_pit3 (m : Mem) :
    m.read_internal (PIT_START + 3) = some (m.pit.2.2.2, m) := by
  unfold Mem.read_internal
  rw [if_neg (by simp only [PIT_START, PHYSMEM_MAX]; omega)]
  rw [if_neg (by simp only [PIT_START, TILE_MAP_START, TILE_MAP_SIZE]; omega)]
  rw [if_neg (by simp only [PIT_START, TILE_FRAME_BUFFER_START, TILE_FRAME_BUFFER_SIZE]; omega)]
  rw [if_neg (by simp only [PIT_START, PIXEL_FRAME_BUFFER_START, PIXEL_FRAME_BUFFER_SIZE]; omega)]
  rw [if_neg (by simp only [PIT_START, SD_DMA_MEM_ADDR, SD_DMA_RANGE_SIZE]; omega)]
  rw [if_neg (by simp only [PIT_START, SD2_DMA_MEM_ADDR, SD_DMA_RANGE_SIZE]; omega)]
  rw [if_neg (by simp only [PIT_START, PS2_STREAM]; omega)]
  rw [if_neg (by simp only [PIT_START, PS2_STREAM]; omega)]
  rw [if_neg (by simp only [PIT_START, SPRITE_MAP_START, SPRITE_MAP_SIZE]; omega)]
  rw [if_neg (by simp only [PIT_START, SPRITE_REGISTERS_START, SPRITE_REGISTERS_SIZE]; omega)]
  rw [if_neg (by simp only [PIT_START, TILE_V_SCROLL_START]; omega)]
  rw [if_neg (by simp only [PIT_START, TILE_V_SCROLL_START]; omega)]
  rw [if_neg (by simp only [PIT_START, TILE_H_SCROLL_START]; omega)]
  rw [if_neg (by simp only [PIT_START, TILE_H_SCROLL_START]; omega)]
  rw [if_neg (by simp only [PIT_START, TILE_SCALE_REGISTER_START]; omega)]
  rw [if_neg (by simp only [PIT_START, PIXEL_V_SCROLL_START]; omega)]
  rw [if_neg (by simp only [PIT_START, PIXEL_V_SCROLL_START]; omega)]
  rw [if_neg (by simp only [PIT_START, PIXEL_H_SCROLL_START]; omega)]
  rw [if_neg (by simp only [PIT_START, PIXEL_H_SCROLL_START]; omega)]
  rw [if_neg (by simp only [PIT_START, PIXEL_SCALE_REGISTER_START]; omega)]
  rw [if_neg (by simp only [PIT_START, SPRITE_SCALE_START, SPRITE_SCALE_SIZE, SPRITE_COUNT]; omega)]
  rw [if_neg (by simp only [PIT_START, VGA_STATUS_REGISTER_START]; omega)]
  rw [if_neg (by simp only [PIT_START, VGA_FRAME_REGISTER_START]; omega)]
  rw [if_neg (by simp only [PIT_START, VGA_FRAME_REGISTER_START]; omega)]
  rw [if_neg (by simp only [PIT_START, VGA_FRAME_REGISTER_START]; omega)]
  rw [if_neg (by simp only [PIT_START, VGA_FRAME_REGISTER_START]; omega)]
  rw [if_neg (by simp only [PIT_START, UART_TX]; omega)]
  rw [if_neg (by simp only [PIT_START, UART_RX]; omega)]
  rw [if_neg (by omega)]
  rw [if_neg (by omega)]
  rw [if_neg (by omega)]
  rw [if_pos rfl]

theorem Mem.read_u32_pit (m : Mem) :
    m.read_u32 PIT_START =
      some (le32 m.pit.1 m.pit.2.1 m.pit.2.2.1 m.pit.2.2.2, m) := by
  unfold Mem.read_u32
  rw [show PIT_START &&& 0xFFFFFFFC = PIT_START by decide]
  unfold Mem.read_u32_internal
  simp only [Mem.read_internal_pit0, Mem.read_internal_pit1,
    Mem.read_internal_pit2, Mem.read_internal_pit3, le32]

/-!
C7: IPI send and delivery.
-/

/-- Payloads are untouched and pending words only grow (by OR) between two
controller states; dispatching input or device interrupts has this shape. -/
def pendExt (ic ic' : InterruptController) : Prop :=
  ic'.ipi_payload = ic.ipi_payload ∧
  ∀ c, ∃ b, ic'.pending c = ic.pending c ||| b

theorem pendExt_refl (ic : InterruptController) : pendExt ic ic :=
  ⟨rfl, fun _ => ⟨0, by simp⟩⟩

theorem pendExt_trans {a b c : InterruptController} (h1 : pendExt a b)
    (h2 : pendExt b c) : pendExt a c := by
  obtain ⟨e1, p1⟩ := h1
  obtain ⟨e2, p2⟩ := h2
  refine ⟨e2.trans e1, fun k => ?_⟩
  obtain ⟨x, hx⟩ := p1 k
  obtain ⟨y, hy⟩ := p2 k
  exact ⟨x ||| y, by rw [hy, hx, Nat.or_assoc]⟩

theorem pendExt_set (ic : InterruptController) (core bits : Nat) :
    pendExt ic (ic.set_pending_bits core bits) := by
  refine ⟨rfl, fun c => ?_⟩
  unfold InterruptController.set_pending_bits
  by_cases h : c = core
  · subst h
    exact ⟨bits, by simp [upd]⟩
  · exact ⟨0, by simp [upd, h]⟩

theorem pendExt_routes (ic : InterruptController) (r : InterruptRouteState) :
    pendExt ic { ic with routes := r } :=
  ⟨rfl, fun _ => ⟨0, by simp⟩⟩

theorem dispatch_input_pendExt (ic : InterruptController) (u io : Bool) :
    pendExt ic (ic.dispatch_input u io) := by
  unfold InterruptController.dispatch_input
  split_ifs with h1 h2 h3
  · exact pendExt_trans (pendExt_routes _ _) (pendExt_set _ _ _)
  · exact pendExt_refl _
  · exact pendExt_trans (pendExt_routes _ _) (pendExt_set _ _ _)
  · exact pendExt_refl _

theorem dispatch_device_pendExt (ic : InterruptController) (p : Nat) :
    pendExt ic (ic.dispatch_device_interrupts p) := by
  unfold InterruptController.dispatch_device_interrupts
  split_ifs with h0 hsd hvga
  · exact pendExt_refl _
  · exact pendExt_trans
      (pendExt_trans (pendExt_routes _ _) (pendExt_set _ _ _))
      (pendExt_trans (pendExt_routes _ _) (pendExt_set _ _ _))
  · exact pendExt_trans (pendExt_routes _ _) (pendExt_set _ _ _)
  · exact pendExt_trans (pendExt_routes _ _) (pendExt_set _ _ _)
  · exact pendExt_refl _

theorem or_keeps_bit (p b m : Nat) (h : p &&& m ≠ 0) : (p ||| b) &&& m ≠ 0 := by
  intro hc
  apply h
  apply Nat.eq_of_testBit_eq
  intro i
  simp only [Nat.testBit_and, Nat.zero_testBit]
  have hz := congrArg (fun x => x.testBit i) hc
  simp only [Nat.testBit_and, Nat.testBit_or, Nat.zero_testBit] at hz
  cases hp : p.testBit i <;> cases hm : m.testBit i <;> simp_all

theorem check_for_interrupts_ipi_deliver (s : Emulator)
    (ic : InterruptController) (v : Nat)
    (hpay : ic.ipi_payload s.core_id = v)
    (hbit : ic.pending s.core_id &&& IPI_INTERRUPT_BIT ≠ 0) :
    ∃ s2 ic2, s.check_for_interrupts ic = some (s2, ic2) ∧
      s2.cregfile 10 = v ∧ s2.cregfile 2 &&& IPI_INTERRUPT_BIT ≠ 0 ∧
      ic2.pending s.core_id = 0 ∧ s2.pc = s.pc := by
  simp only [Emulator.check_for_interrupts, InterruptController.take_pending,
    InterruptController.read_ipi_payload]
  set T := (ic.dispatch_input s.use_uart_rx
      (decide (¬ s.memory.io_buffer.isEmpty = true))).dispatch_device_interrupts
      s.memory.check_interrupts.1 with hT
  have hext : pendExt ic T := by
    rw [hT]
    exact pendExt_trans (dispatch_input_pendExt ic s.use_uart_rx _)
      (dispatch_device_pendExt _ _)
  obtain ⟨hpayT, hpendT⟩ := hext
  obtain ⟨b, hb⟩ := hpendT s.core_id
  have hip : T.pending s.core_id &&& IPI_INTERRUPT_BIT ≠ 0 := by
    rw [hb]
    exact or_keeps_bit _ _ _ hbit
  have hnz : T.pending s.core_id ≠ 0 := by
    intro h0
    rw [h0] at hip
    simp at hip
  have hcr2 : ∀ x : Nat,
      (x ||| T.pending s.core_id) &&& IPI_INTERRUPT_BIT ≠ 0 := fun x => by
    rw [Nat.or_comm]
    exact or_keeps_bit _ _ _ hip
  rw [if_pos hnz, if_pos hip]
  simp only []
  by_cases ht : s.timer = 0
  · rw [if_pos ht, Mem.read_u32_pit]
    simp only []
    split_ifs with hv
    · refine ⟨_, _, rfl, ?_, ?_, ?_, ?_⟩
      · simp [Emulator.set_isr_bits, upd, hpayT, hpay]
      · simp only [Emulator.set_isr_bits, upd]
        norm_num
        exact or_keeps_bit _ _ _ (hcr2 _)
      · simp [upd]
      · rfl
    · refine ⟨_, _, rfl, ?_, ?_, ?_, ?_⟩
      · simp [upd, hpayT, hpay]
      · simp only [upd]
        norm_num
        exact hcr2 _
      · simp [upd]
      · rfl
  · rw [if_neg ht]
    refine ⟨_, _, rfl, ?_, ?_, ?_, ?_⟩
    · simp [upd, hpayT, hpay]
    · simp only [upd]
      norm_num
      exact hcr2 _
    · simp [upd]
    · rfl

/-- C7: `send_ipi t v` stores `v` in core `t`'s payload slot and raises its
IPI pending bit, returning false exactly when `t` is out of range; and a core
whose pending word has the IPI bit set copies the payload into its MBI
control register (cr10) and ORs the taken bits into ISR when it polls for
interrupts. -/
theorem ipi_send_deliver (ic : InterruptController) (t v : Nat)
    (s : Emulator) :
    (ic.cores ≤ t → ic.send_ipi t v = (ic, false)) ∧
    (t < ic.cores →
      (ic.send_ipi t v).2 = true ∧
      (ic.send_ipi t v).1.ipi_payload t = v ∧
      (ic.send_ipi t v).1.pending t &&& IPI_INTERRUPT_BIT ≠ 0) ∧
    (ic.ipi_payload s.core_id = v →
      ic.pending s.core_id &&& IPI_INTERRUPT_BIT ≠ 0 →
      ∃ s2 ic2, s.check_for_interrupts ic = some (s2, ic2) ∧
        s2.cregfile 10 = v ∧ s2.cregfile 2 &&& IPI_INTERRUPT_BIT ≠ 0 ∧
        ic2.pending s.core_id = 0 ∧ s2.pc = s.pc) := by
  refine ⟨?_, ?_, ?_⟩
  · intro h
    unfold InterruptController.send_ipi
    rw [if_pos h]
  · intro h
    unfold InterruptController.send_ipi
    rw [if_neg (by omega)]
    refine ⟨rfl, ?_, ?_⟩
    · simp [InterruptController.write_ipi_payload,
        InterruptController.set_pending_bits, upd]
    · simp only [InterruptController.write_ipi_payload,
        InterruptController.set_pending_bits, upd]
      norm_num
      rw [Nat.or_comm]
      exact or_keeps_bit _ _ _ (by decide)
  · intro hpay hbit
    exact check_for_interrupts_ipi_deliver s ic v hpay hbit

/-- Two-core controller after core 0 sends an IPI with payload 0xCAFEBABE to
core 1. -/
def icP : InterruptController :=
  ((InterruptController.new 2).send_ipi 1 0xCAFEBABE).1

/-- Core 1 of a two-core machine in its boot state (timer 0). -/
def emuT : Emulator := Emulator.from_shared mem0 false 1

/-- C7 witness: out-of-range send is rejected, the in-range send reports
success, and core 1 then receives MBI = 0xCAFEBABE with the IPI ISR bit. -/
theorem ipi_send_deliver_witness :
    (InterruptController.new 2).send_ipi 2 0xCAFEBABE =
      (InterruptController.new 2, false) ∧
    ((InterruptController.new 2).send_ipi 1 0xCAFEBABE).2 = true ∧
    (∃ s2 ic2, emuT.check_for_interrupts icP = some (s2, ic2) ∧
      s2.cregfile 10 = 0xCAFEBABE ∧ s2.cregfile 2 &&& IPI_INTERRUPT_BIT ≠ 0 ∧
      ic2.pending emuT.core_id = 0 ∧ s2.pc = emuT.pc) := by
  refine ⟨(ipi_send_deliver (InterruptController.new 2) 2 0xCAFEBABE
      emu0).1 (by decide),
    ((ipi_send_deliver (InterruptController.new 2) 1 0xCAFEBABE
      emu0).2.1 (by decide)).1, ?_⟩
  exact (ipi_send_deliver icP 1 0xCAFEBABE emuT).2.2 (by decide) (by decide)

theorem alookup_none_iff {α β : Type} [DecidableEq α] (l : List (α × β))
    (a : α) : alookup l a = none ↔ a ∉ l.map Prod.fst := by
  induction l with
  | nil => simp [alookup]
  | cons p t ih =>
    obtain ⟨k, v⟩ := p
    simp only [alookup, List.map_cons, List.mem_cons]
    by_cases h : k = a
    · subst h
      simp
    · simp [h, ih, Ne.symm h]

theorem aremove_sublist {α β : Type} [DecidableEq α] (l : List (α × β))
    (a : α) : (aremove l a).Sublist l := by
  induction l with
  | nil => simp [aremove]
  | cons p t ih =>
    obtain ⟨k, v⟩ := p
    simp only [aremove]
    by_cases h : k = a
    · rw [if_pos h]
      exact ih.trans (List.sublist_cons_self _ _)
    · rw [if_neg h]
      exact ih.cons₂ _

theorem aremove_not_mem {α β : Type} [DecidableEq α] (l : List (α × β))
    (a : α) (h : a ∉ l.map Prod.fst) : aremove l a = l := by
  induction l with
  | nil => rfl
  | cons p t ih =>
    obtain ⟨k, v⟩ := p
    simp only [List.map_cons, List.mem_cons, not_or] at h
    simp only [aremove, ih h.2]
    rw [if_neg (fun hk => h.1 hk.symm)]

theorem aremove_length_mem {α β : Type} [DecidableEq α] (l : List (α × β))
    (a : α) (hn : (l.map Prod.fst).Nodup) (h : a ∈ l.map Prod.fst) :
    (aremove l a).length + 1 = l.length := by
  induction l with
  | nil => cases h
  | cons p t ih =>
    obtain ⟨k, v⟩ := p
    simp only [List.map_cons, List.nodup_cons] at hn
    simp only [List.map_cons, List.mem_cons] at h
    simp only [aremove]
    by_cases hk : k = a
    · rw [if_pos hk, aremove_not_mem t a (hk ▸ hn.1)]
      simp
    · rw [if_neg hk]
      have hm : a ∈ t.map Prod.fst := by
        rcases h with h | h
        · exact absurd h.symm hk
        · exact h
      simp only [List.length_cons]
      rw [← ih hn.2 hm]

theorem ainsert_keys_some {α β : Type} [DecidableEq α] (l : List (α × β))
    (a : α) (b : β) (h : (alookup l a).isSome) :
    (ainsert l a b).map Prod.fst = l.map Prod.fst := by
  unfold ainsert
  rw [if_pos h, List.map_map]
  apply List.map_congr_left
  intro p _
  by_cases hp : p.1 = a
  · simp [hp]
  · simp [hp]

theorem ainsert_none {α β : Type} [DecidableEq α] (l : List (α × β))
    (a : α) (b : β) (h : alookup l a = none) :
    ainsert l a b = (a, b) :: l := by
  unfold ainsert
  rw [if_neg (by simp [h])]
/-- Well-formedness of a TLB cache as created by the CPU: fixed capacity 32,
size counters equal to table cardinality, tables within capacity, keys
unique. -/
def RandomCache.inv (c : RandomCache) : Prop :=
  c.private_capacity = 32 ∧ c.global_capacity = 32 ∧
  c.private_size = c.private_table.length ∧
  c.global_size = c.global_table.length ∧
  c.private_table.length ≤ 32 ∧ c.global_table.length ≤ 32 ∧
  (c.private_table.map Prod.fst).Nodup ∧ (c.global_table.map Prod.fst).Nodup

theorem RandomCache.new_inv : (RandomCache.new 32).inv := by
  unfold RandomCache.inv RandomCache.new
  simp

theorem RandomCache.write_inv (c : RandomCache) (pid vpn ppn : Nat)
    (h : c.inv) : (c.write pid vpn ppn).inv := by
  obtain ⟨hpc, hgc, hps, hgs, hpl, hgl, hpn, hgn⟩ := h
  unfold RandomCache.write RandomCache.inv
  by_cases hg : ppn &&& 0x00000010 ≠ 0
  · rw [if_pos hg]
    by_cases hx : (alookup c.global_table vpn).isSome
    · rw [if_pos hx]
      simp only []
      have hkeys := ainsert_keys_some c.global_table vpn ppn hx
      have hlen : (ainsert c.global_table vpn ppn).length =
          c.global_table.length := by
        rw [← List.length_map (ainsert c.global_table vpn ppn) Prod.fst,
          hkeys, List.length_map]
      exact ⟨hpc, hgc, hps, by simp [hlen, hgs], hpl, by simp [hlen, hgl],
        hpn, by rw [hkeys]; exact hgn⟩
    · rw [if_neg hx]
      have hnone : alookup c.global_table vpn = none := by
        cases hl : alookup c.global_table vpn
        · rfl
        · rw [hl] at hx
          simp at hx
      have hmem : vpn ∉ c.global_table.map Prod.fst :=
        (alookup_none_iff _ _).mp hnone
      by_cases hsz : c.global_size < c.global_capacity
      · rw [if_pos hsz]
        simp only []
        rw [ainsert_none _ _ _ hnone]
        refine ⟨hpc, hgc, hps, ?_, hpl, ?_, hpn, ?_⟩
        · simp [hgs]
        · simp only [List.length_cons]
          omega
        · simp only [List.map_cons]
          exact List.nodup_cons.mpr ⟨hmem, hgn⟩
      · rw [if_neg hsz]
        have hlen : c.global_table.length = 32 := by omega
        cases htab : c.global_table with
        | nil =>
          rw [htab] at hlen
          simp at hlen
        | cons hd tl =>
          obtain ⟨k0, v0⟩ := hd
          have hk0 : k0 ∉ tl.map Prod.fst := by
            rw [htab] at hgn
            simp only [List.map_cons, List.nodup_cons] at hgn
            exact hgn.1
          have hmem' : vpn ∉ tl.map Prod.fst := by
            rw [htab] at hmem
            simp only [List.map_cons, List.mem_cons, not_or] at hmem
            exact hmem.2
          have hgn' : (tl.map Prod.fst).Nodup := by
            rw [htab] at hgn
            simp only [List.map_cons, List.nodup_cons] at hgn
            exact hgn.2
          have hrm : aremove ((k0, v0) :: tl) k0 = tl := by
            simp only [aremove, if_pos rfl]
            exact aremove_not_mem tl k0 hk0
          have htl : tl.length + 1 = 32 := by
            rw [htab] at hlen
            simpa using hlen
          simp only [List.head?_cons, hrm]
          rw [ainsert_none _ _ _ ((alookup_none_iff _ _).mpr hmem')]
          refine ⟨hpc, hgc, hps, ?_, hpl, ?_, hpn, ?_⟩
          · simp only [List.length_cons]
            omega
          · simp only [List.length_cons]
            omega
          · simp only [List.map_cons]
            exact List.nodup_cons.mpr ⟨hmem', hgn'⟩
  · rw [if_neg hg]
    by_cases hx : (alookup c.private_table (pid, vpn)).isSome
    · rw [if_pos hx]
      simp only []
      have hkeys := ainsert_keys_some c.private_table (pid, vpn) ppn hx
      have hlen : (ainsert c.private_table (pid, vpn) ppn).length =
          c.private_table.length := by
        rw [← List.length_map (ainsert c.private_table (pid, vpn) ppn) Prod.fst,
          hkeys, List.length_map]
      exact ⟨hpc, hgc, by simp [hlen, hps], hgs, by simp [hlen, hpl], hgl,
        by rw [hkeys]; exact hpn, hgn⟩
    · rw [if_neg hx]
      have hnone : alookup c.private_table (pid, vpn) = none := by
        cases hl : alookup c.private_table (pid, vpn)
        · rfl
        · rw [hl] at hx
          simp at hx
      have hmem : (pid, vpn) ∉ c.private_table.map Prod.fst :=
        (alookup_none_iff _ _).mp hnone
      by_cases hsz : c.private_size < c.private_capacity
      · rw [if_pos hsz]
        simp only []
        rw [ainsert_none _ _ _ hnone]
        refine ⟨hpc, hgc, ?_, hgs, ?_, hgl, ?_, hgn⟩
        · simp [hps]
        · simp only [List.length_cons]
          omega
        · simp only [List.map_cons]
          exact List.nodup_cons.mpr ⟨hmem, hpn⟩
      · rw [if_neg hsz]
        have hlen : c.private_table.length = 32 := by omega
        cases htab : c.private_table with
        | nil =>
          rw [htab] at hlen
          simp at hlen
        | cons hd tl =>
          obtain ⟨k0, v0⟩ := hd
          have hk0 : k0 ∉ tl.map Prod.fst := by
            rw [htab] at hpn
            simp only [List.map_cons, List.nodup_cons] at hpn
            exact hpn.1
          have hmem' : (pid, vpn) ∉ tl.map Prod.fst := by
            rw [htab] at hmem
            simp only [List.map_cons, List.mem_cons, not_or] at hmem
            exact hmem.2
          have hpn' : (tl.map Prod.fst).Nodup := by
            rw [htab] at hpn
            simp only [List.map_cons, List.nodup_cons] at hpn
            exact hpn.2
          have hrm : aremove ((k0, v0) :: tl) k0 = tl := by
            simp only [aremove, if_pos rfl]
            exact aremove_not_mem tl k0 hk0
          have htl : tl.length + 1 = 32 := by
            rw [htab] at hlen
            simpa using hlen
          simp only [List.head?_cons, hrm]
          rw [ainsert_none _ _ _ ((alookup_none_iff _ _).mpr hmem')]
          refine ⟨hpc, hgc, ?_, hgs, ?_, hgl, ?_, hgn⟩
          · simp only [List.length_cons]
            omega
          · simp only [List.length_cons]
            omega
          · simp only [List.map_cons]
            exact List.nodup_cons.mpr ⟨hmem', hpn'⟩

theorem RandomCache.invalidate_inv (c : RandomCache) (pid vpn : Nat)
    (h : c.inv) : (c.invalidate pid vpn).inv := by
  obtain ⟨hpc, hgc, hps, hgs, hpl, hgl, hpn, hgn⟩ := h
  unfold RandomCache.invalidate RandomCache.inv
  have hsubP := aremove_sublist c.private_table (pid, vpn)
  have hsubG := aremove_sublist c.global_table vpn
  have hlenP := hsubP.length_le
  have hlenG := hsubG.length_le
  have hnodP : ((aremove c.private_table (pid, vpn)).map Prod.fst).Nodup :=
    (hsubP.map Prod.fst).nodup hpn
  have hnodG : ((aremove c.global_table vpn).map Prod.fst).Nodup :=
    (hsubG.map Prod.fst).nodup hgn
  by_cases hp : (alookup c.private_table (pid, vpn)).isSome <;>
    by_cases hq : (alookup c.global_table vpn).isSome
  · have hmemP : (pid, vpn) ∈ c.private_table.map Prod.fst := by
      by_contra hm
      rw [(alookup_none_iff _ _).mpr hm] at hp
      simp at hp
    have hmemG : vpn ∈ c.global_table.map Prod.fst := by
      by_contra hm
      rw [(alookup_none_iff _ _).mpr hm] at hq
      simp at hq
    have heP := aremove_length_mem c.private_table (pid, vpn) hpn hmemP
    have heG := aremove_length_mem c.global_table vpn hgn hmemG
    rw [if_pos hp]
    simp only []
    rw [if_pos hq]
    simp only []
    exact ⟨hpc, hgc, by omega, by omega, by omega, by omega, hnodP, hnodG⟩
  · have hmemP : (pid, vpn) ∈ c.private_table.map Prod.fst := by
      by_contra hm
      rw [(alookup_none_iff _ _).mpr hm] at hp
      simp at hp
    have hnG : alookup c.global_table vpn = none := by
      cases hl : alookup c.global_table vpn
      · rfl
      · rw [hl] at hq
        simp at hq
    have heP := aremove_length_mem c.private_table (pid, vpn) hpn hmemP
    have heG := aremove_not_mem c.global_table vpn ((alookup_none_iff _ _).mp hnG)
    rw [if_pos hp]
    simp only []
    rw [if_neg hq]
    simp only []
    exact ⟨hpc, hgc, by omega, by rw [heG]; omega, by omega,
      by rw [heG]; omega, hnodP, by rw [heG]; exact hgn⟩
  · have hnP : alookup c.private_table (pid, vpn) = none := by
      cases hl : alookup c.private_table (pid, vpn)
      · rfl
      · rw [hl] at hp
        simp at hp
    have hmemG : vpn ∈ c.global_table.map Prod.fst := by
      by_contra hm
      rw [(alookup_none_iff _ _).mpr hm] at hq
      simp at hq
    have heP := aremove_not_mem c.private_table (pid, vpn)
      ((alookup_none_iff _ _).mp hnP)
    have heG := aremove_length_mem c.global_table vpn hgn hmemG
    rw [if_neg hp]
    simp only []
    rw [if_pos hq]
    simp only []
    exact ⟨hpc, hgc, by rw [heP]; omega, by omega, by rw [heP]; omega,
      by omega, by rw [heP]; exact hpn, hnodG⟩
  · have hnP : alookup c.private_table (pid, vpn) = none := by
      cases hl : alookup c.private_table (pid, vpn)
      · rfl
      · rw [hl] at hp
        simp at hp
    have hnG : alookup c.global_table vpn = none := by
      cases hl : alookup c.global_table vpn
      · rfl
      · rw [hl] at hq
        simp at hq
    have heP := aremove_not_mem c.private_table (pid, vpn)
      ((alookup_none_iff _ _).mp hnP)
    have heG := aremove_not_mem c.global_table vpn ((alookup_none_iff _ _).mp hnG)
    rw [if_neg hp]
    simp only []
    rw [if_neg hq]
    exact ⟨hpc, hgc, by rw [heP]; omega, by rw [heG]; omega,
      by rw [heP]; omega, by rw [heG]; omega,
      by rw [heP]; exact hpn, by rw [heG]; exact hgn⟩

theorem RandomCache.clear_inv (c : RandomCache) (h : c.inv) : c.clear.inv := by
  unfold RandomCache.clear RandomCache.inv
  obtain ⟨hpc, hgc, _⟩ := h
  simp [hpc, hgc]

/-- One architectural TLB operation: `tlbw`, `tlbi` or `tlbc`. -/
inductive TlbOp where
  | write (pid vpn ppn : Nat) : TlbOp
  | invalidate (pid vpn : Nat) : TlbOp
  | clear : TlbOp

def applyTlbOp (c : RandomCache) : TlbOp → RandomCache
  | TlbOp.write pid vpn ppn => c.write pid vpn ppn
  | TlbOp.invalidate pid vpn => c.invalidate pid vpn
  | TlbOp.clear => c.clear

def applyTlbOps (c : RandomCache) (ops : List TlbOp) : RandomCache :=
  ops.foldl applyTlbOp c

theorem applyTlbOps_inv (ops : List TlbOp) (c : RandomCache) (h : c.inv) :
    (applyTlbOps c ops).inv := by
  induction ops generalizing c with
  | nil => exact h
  | cons op rest ih =>
    cases op with
    | write pid vpn ppn => exact ih _ (RandomCache.write_inv c pid vpn ppn h)
    | invalidate pid vpn => exact ih _ (RandomCache.invalidate_inv c pid vpn h)
    | clear => exact ih _ (RandomCache.clear_inv c h)

theorem write_private_evict (d : RandomCache) (pid vpn ppn : Nat)
    (hinv : d.inv) (hg : ppn &&& 0x00000010 = 0)
    (hfull : d.private_table.length = 32)
    (hnew : alookup d.private_table (pid, vpn) = none) :
    (d.write pid vpn ppn).private_table.length = 32 ∧
    (pid, vpn) ∈ (d.write pid vpn ppn).private_table.map Prod.fst ∧
    ∃ k, k ∈ d.private_table.map Prod.fst ∧
      k ∉ (d.write pid vpn ppn).private_table.map Prod.fst := by
  obtain ⟨hpc, hgc, hps, hgs, hpl, hgl, hpn, hgn⟩ := hinv
  have hmemNew : (pid, vpn) ∉ d.private_table.map Prod.fst :=
    (alookup_none_iff _ _).mp hnew
  unfold RandomCache.write
  rw [if_neg (fun hc => hc hg)]
  rw [if_neg (by simp [hnew])]
  rw [if_neg (by omega)]
  cases htab : d.private_table with
  | nil =>
    rw [htab] at hfull
    simp at hfull
  | cons hd tl =>
    obtain ⟨k0, v0⟩ := hd
    rw [htab] at hmemNew hpn hfull
    simp only [List.map_cons, List.nodup_cons] at hpn
    simp only [List.map_cons, List.mem_cons, not_or] at hmemNew
    have hrm : aremove ((k0, v0) :: tl) k0 = tl := by
      simp only [aremove, if_pos rfl]
      exact aremove_not_mem tl k0 hpn.1
    have hnone' : alookup tl (pid, vpn) = none :=
      (alookup_none_iff _ _).mpr hmemNew.2
    simp only [List.head?_cons, hrm]
    rw [ainsert_none _ _ _ hnone']
    simp only [List.length_cons] at hfull ⊢
    refine ⟨by omega, ?_, ⟨k0, ?_, ?_⟩⟩
    · simp
    · simp
    · simp only [List.map_cons, List.mem_cons, not_or]
      exact ⟨fun hc => hmemNew.1 hc.symm, hpn.1⟩

theorem write_global_evict (d : RandomCache) (pid vpn ppn : Nat)
    (hinv : d.inv) (hg : ppn &&& 0x00000010 ≠ 0)
    (hfull : d.global_table.length = 32)
    (hnew : alookup d.global_table vpn = none) :
    (d.write pid vpn ppn).global_table.length = 32 ∧
    vpn ∈ (d.write pid vpn ppn).global_table.map Prod.fst ∧
    ∃ k, k ∈ d.global_table.map Prod.fst ∧
      k ∉ (d.write pid vpn ppn).global_table.map Prod.fst := by
  obtain ⟨hpc, hgc, hps, hgs, hpl, hgl, hpn, hgn⟩ := hinv
  have hmemNew : vpn ∉ d.global_table.map Prod.fst :=
    (alookup_none_iff _ _).mp hnew
  unfold RandomCache.write
  rw [if_pos hg]
  rw [if_neg (by simp [hnew])]
  rw [if_neg (by omega)]
  cases htab : d.global_table with
  | nil =>
    rw [htab] at hfull
    simp at hfull
  | cons hd tl =>
    obtain ⟨k0, v0⟩ := hd
    rw [htab] at hmemNew hgn hfull
    simp only [List.map_cons, List.nodup_cons] at hgn
    simp only [List.map_cons, List.mem_cons, not_or] at hmemNew
    have hrm : aremove ((k0, v0) :: tl) k0 = tl := by
      simp only [aremove, if_pos rfl]
      exact aremove_not_mem tl k0 hgn.1
    have hnone' : alookup tl vpn = none :=
      (alookup_none_iff _ _).mpr hmemNew.2
    simp only [List.head?_cons, hrm]
    rw [ainsert_none _ _ _ hnone']
    simp only [List.length_cons] at hfull ⊢
    refine ⟨by omega, ?_, ⟨k0, ?_, ?_⟩⟩
    · simp
    · simp
    · simp only [List.map_cons, List.mem_cons, not_or]
      exact ⟨fun hc => hmemNew.1 hc.symm, hgn.1⟩

/-- C6: after any sequence of TLB operations from a well-formed cache, the
private and global tables hold at most 32 entries and each size counter
equals its table's cardinality; a tlbw of a fresh key into a full table keeps
the table at 32 entries, adds the new key, and evicts some existing key
rather than growing the table. -/
theorem tlb_capacity (ops : List TlbOp) (c : RandomCache) (h : c.inv) :
    (applyTlbOps c ops).private_table.length ≤ 32 ∧
    (applyTlbOps c ops).global_table.length ≤ 32 ∧
    (applyTlbOps c ops).private_size =
      (applyTlbOps c ops).private_table.length ∧
    (applyTlbOps c ops).global_size =
      (applyTlbOps c ops).global_table.length ∧
    (∀ pid vpn ppn, ppn &&& 0x00000010 = 0 →
      (applyTlbOps c ops).private_table.length = 32 →
      alookup (applyTlbOps c ops).private_table (pid, vpn) = none →
      ((applyTlbOps c ops).write pid vpn ppn).private_table.length = 32 ∧
      (pid, vpn) ∈
        ((applyTlbOps c ops).write pid vpn ppn).private_table.map Prod.fst ∧
      ∃ k, k ∈ (applyTlbOps c ops).private_table.map Prod.fst ∧
        k ∉ ((applyTlbOps c ops).write pid vpn ppn).private_table.map
          Prod.fst) ∧
    (∀ pid vpn ppn, ppn &&& 0x00000010 ≠ 0 →
      (applyTlbOps c ops).global_table.length = 32 →
      alookup (applyTlbOps c ops).global_table vpn = none →
      ((applyTlbOps c ops).write pid vpn ppn).global_table.length = 32 ∧
      vpn ∈
        ((applyTlbOps c ops).write pid vpn ppn).global_table.map Prod.fst ∧
      ∃ k, k ∈ (applyTlbOps c ops).global_table.map Prod.fst ∧
        k ∉ ((applyTlbOps c ops).write pid vpn ppn).global_table.map
          Prod.fst) := by
  have hi := applyTlbOps_inv ops c h
  refine ⟨hi.2.2.2.2.1, hi.2.2.2.2.2.1, hi.2.2.1, hi.2.2.2.1, ?_, ?_⟩
  · intro pid vpn ppn hg hfull hnew
    exact write_private_evict _ pid vpn ppn hi hg hfull hnew
  · intro pid vpn ppn hg hfull hnew
    exact write_global_evict _ pid vpn ppn hi hg hfull hnew

/-- Thirty-two private tlbw operations with distinct VPNs (payload 1 has the
G bit clear), filling the private table exactly to capacity. -/
def ops32 : List TlbOp := (List.range 32).map (fun i => TlbOp.write 0 i 1)

set_option maxRecDepth 8192 in
/-- C6 witness: the invariant and the eviction clause evaluated after 32
distinct private writes; the 33rd fresh write keeps the table at 32 entries
and evicts an existing key. -/
theorem tlb_capacity_witness :
    (applyTlbOps (RandomCache.new 32) ops32).private_table.length ≤ 32 ∧
    (applyTlbOps (RandomCache.new 32) ops32).private_size =
      (applyTlbOps (RandomCache.new 32) ops32).private_table.length ∧
    ((applyTlbOps (RandomCache.new 32) ops32).write 0 32 1).private_table.length
      = 32 ∧
    (0, 32) ∈
      ((applyTlbOps (RandomCache.new 32) ops32).write 0 32 1).private_table.map
        Prod.fst ∧
    ∃ k, k ∈ (applyTlbOps (RandomCache.new 32) ops32).private_table.map
        Prod.fst ∧
      k ∉ ((applyTlbOps (RandomCache.new 32) ops32).write 0 32 1).private_table.map
        Prod.fst := by
  have h := tlb_capacity ops32 (RandomCache.new 32)
    (by unfold RandomCache.inv RandomCache.new; simp)
  obtain ⟨hp, _, hs, _, hevict, _⟩ := h
  obtain ⟨h1, h2, h3⟩ := hevict 0 32 1 (by decide) (by decide) (by decide)
  exact ⟨hp, hs, h1, h2, h3⟩

end Dioptase
